import Mathlib

/-!
Verification of the license record codec and database import pipeline of the
scancode-rs crate (src/models.rs and src/import.rs).

The metadata document is modelled as an association list of field names and
structured values, mirroring a parsed YAML mapping.  Decoding follows the
semantics of the serde derive on `ScancodeLicense` with
`deny_unknown_fields`: every key must be a schema field, duplicate keys are
an error, each value is parsed by the declared field type, absent fields with
a `default` attribute are filled in, and absent required fields are an
error.  Encoding follows the serialize derive: fields are emitted in
declaration order and skipped when the `skip_serializing_if` predicate holds.
-/

set_option maxHeartbeats 1000000

/-- Structured scalar or sequence value of a parsed metadata document. -/
inductive Value where
  | vstr (s : String)
  | vint (n : Int)
  | vseq (elems : List Value)
  | vnull

/-- A parsed metadata document: an association list of field name and value. -/
abbrev Doc := List (String × Value)

/-- License categories from ScanCode, as in the `Category` enum of models.rs. -/
inductive Category where
  | Copyleft
  | CopyleftLimited
  | PatentLicense
  | Permissive
  | PublicDomain
  | Commercial
  | ProprietaryFree
  | FreeRestricted
  | SourceAvailable
  | UnstatedLicense
deriving DecidableEq, Repr

/-- External label of each category variant, from the serde rename attributes. -/
def categoryLabel : Category → String
  | .Copyleft => "Copyleft"
  | .CopyleftLimited => "Copyleft Limited"
  | .PatentLicense => "Patent License"
  | .Permissive => "Permissive"
  | .PublicDomain => "Public Domain"
  | .Commercial => "Commercial"
  | .ProprietaryFree => "Proprietary Free"
  | .FreeRestricted => "Free Restricted"
  | .SourceAvailable => "Source-available"
  | .UnstatedLicense => "Unstated License"

/-- Inverse of `categoryLabel`: decode a category from its exact external label. -/
def categoryOfLabel : String → Option Category
  | "Copyleft" => some .Copyleft
  | "Copyleft Limited" => some .CopyleftLimited
  | "Patent License" => some .PatentLicense
  | "Permissive" => some .Permissive
  | "Public Domain" => some .PublicDomain
  | "Commercial" => some .Commercial
  | "Proprietary Free" => some .ProprietaryFree
  | "Free Restricted" => some .FreeRestricted
  | "Source-available" => some .SourceAvailable
  | "Unstated License" => some .UnstatedLicense
  | _ => none

/-- The list of all category variants. -/
def allCategories : List Category :=
  [.Copyleft, .CopyleftLimited, .PatentLicense, .Permissive, .PublicDomain,
   .Commercial, .ProprietaryFree, .FreeRestricted, .SourceAvailable, .UnstatedLicense]

/-- Function `bool_from_yes` of models.rs: the string yes decodes to true,
every other string decodes to false. -/
def bool_from_yes (s : String) : Bool :=
  match s with
  | "yes" => true
  | _ => false

/-- Function `yes_from_bool` of models.rs: true serializes as yes, false as no. -/
def yes_from_bool (b : Bool) : String :=
  match b with
  | true => "yes"
  | false => "no"

/-- Function `is_false` of models.rs, the skip predicate of the boolean fields. -/
def is_false (b : Bool) : Bool :=
  b == false

/-- The license record of models.rs (`ScancodeLicense`), with machine strings
and integers for the Rust types. -/
structure ScancodeLicense where
  key : String
  short_name : String
  name : String
  category : Category
  owner : String
  homepage_url : Option String
  notes : Option String
  is_deprecated : Bool
  spdx_license_key : Option String
  text_urls : List String
  osi_url : Option String
  osi_license_key : Option String
  faq_url : Option String
  other_urls : List String
  is_exception : Bool
  other_spdx_license_keys : List String
  ignorable_copyrights : List String
  ignorable_holders : List String
  ignorable_authors : List String
  ignorable_urls : List String
  ignorable_emails : List String
  minimum_coverage : Option Int
  standard_notice : Option String
  language : Option String
  text : String
deriving DecidableEq, Repr

/-- Decode errors of the serde-derived deserializer (sub-kinds of the
MalformedDocument error of the spec). -/
inductive DecodeError where
  | unknownField (fieldName : String)
  | duplicateField
  | missingField (fieldName : String)
  | invalidValue (fieldName : String)
deriving DecidableEq, Repr

/-- Field names accepted by the deserializer: every serialized field of
`ScancodeLicense`, in declaration order.  The `text` field is marked
`serde(skip)` and is not part of the schema. -/
def knownFields : List String :=
  ["key", "short_name", "name", "category", "owner", "homepage_url", "notes",
   "is_deprecated", "spdx_license_key", "text_urls", "osi_url",
   "osi_license_key", "faq_url", "other_urls", "is_exception",
   "other_spdx_license_keys", "ignorable_copyrights", "ignorable_holders",
   "ignorable_authors", "ignorable_urls", "ignorable_emails",
   "minimum_coverage", "standard_notice", "language"]

/-- The five fields with no serde default: absent means a decode error. -/
def requiredFields : List String :=
  ["key", "short_name", "name", "category", "owner"]

/-- First value bound to a key in a document. -/
def lookupField : Doc → String → Option Value
  | [], _ => none
  | (k, v) :: rest, q => if k = q then some v else lookupField rest q

/-- Boolean key distinctness check used by the decoder to model the
duplicate-field rejection of serde. -/
def nodupKeys : List String → Bool
  | [] => true
  | k :: ks => !(ks.contains k) && nodupKeys ks

/-- Parse a required string field (Rust type String). -/
def parseString : Value → Option String
  | .vstr s => some s
  | _ => none

/-- Parse an optional string field (Rust type Option of String): YAML null is
absence, a string is presence. -/
def parseOptString : Value → Option (Option String)
  | .vnull => some none
  | .vstr s => some (some s)
  | _ => none

/-- Parse a boolean field through `bool_from_yes`: the value must be a string,
which is then compared against yes. -/
def parseBoolYes : Value → Option Bool
  | .vstr s => some (bool_from_yes s)
  | _ => none

/-- Parse each element of a YAML sequence as a string. -/
def parseStringList : List Value → Option (List String)
  | [] => some []
  | v :: rest =>
    match parseString v with
    | some s => (parseStringList rest).map (fun l => s :: l)
    | none => none

/-- Parse a sequence-of-strings field (Rust type Vec of String). -/
def parseSeqString : Value → Option (List String)
  | .vseq xs => parseStringList xs
  | _ => none

/-- Smallest value of the Rust i32 type. -/
def i32Min : Int := -(2 ^ 31)

/-- Largest value of the Rust i32 type. -/
def i32Max : Int := 2 ^ 31 - 1

/-- Parse an optional 32-bit integer field (Rust type Option of i32): the
value must be an integer in the i32 range. -/
def parseOptI32 : Value → Option (Option Int)
  | .vnull => some none
  | .vint n => if i32Min ≤ n ∧ n ≤ i32Max then some (some n) else none
  | _ => none

/-- Parse the category field: the value must be a string matching one of the
external labels exactly. -/
def parseCategoryV : Value → Option Category
  | .vstr s => categoryOfLabel s
  | _ => none

/-- Decode one field of a document: take the first value bound to the key and
run the field parser on it; when the key is absent fall back to the serde
default if there is one, and fail otherwise. -/
def decodeField {α : Type} (d : Doc) (k : String) (p : Value → Option α)
    (dflt : Option α) : Except DecodeError α :=
  match lookupField d k with
  | none =>
    match dflt with
    | some a => .ok a
    | none => .error (.missingField k)
  | some v =>
    match p v with
    | some a => .ok a
    | none => .error (.invalidValue k)

/-- Decode a metadata document into a license record, following the serde
derive on `ScancodeLicense` with `deny_unknown_fields`: reject any key
outside the schema, reject duplicate keys, then decode each field with its
declared type, filling defaults for absent optional fields.  The `text`
field is `serde(skip)`: it is never read from the document and is set to the
empty string. -/
def decodeDoc (d : Doc) : Except DecodeError ScancodeLicense :=
  match d.find? (fun p => !(knownFields.contains p.1)) with
  | some p => .error (.unknownField p.1)
  | none =>
    if nodupKeys (d.map Prod.fst) then do
      let key ← decodeField d "key" parseString none
      let short_name ← decodeField d "short_name" parseString none
      let name ← decodeField d "name" parseString none
      let category ← decodeField d "category" parseCategoryV none
      let owner ← decodeField d "owner" parseString none
      let homepage_url ← decodeField d "homepage_url" parseOptString (some none)
      let notes ← decodeField d "notes" parseOptString (some none)
      let is_deprecated ← decodeField d "is_deprecated" parseBoolYes (some false)
      let spdx_license_key ← decodeField d "spdx_license_key" parseOptString (some none)
      let text_urls ← decodeField d "text_urls" parseSeqString (some [])
      let osi_url ← decodeField d "osi_url" parseOptString (some none)
      let osi_license_key ← decodeField d "osi_license_key" parseOptString (some none)
      let faq_url ← decodeField d "faq_url" parseOptString (some none)
      let other_urls ← decodeField d "other_urls" parseSeqString (some [])
      let is_exception ← decodeField d "is_exception" parseBoolYes (some false)
      let other_spdx_license_keys ← decodeField d "other_spdx_license_keys" parseSeqString (some [])
      let ignorable_copyrights ← decodeField d "ignorable_copyrights" parseSeqString (some [])
      let ignorable_holders ← decodeField d "ignorable_holders" parseSeqString (some [])
      let ignorable_authors ← decodeField d "ignorable_authors" parseSeqString (some [])
      let ignorable_urls ← decodeField d "ignorable_urls" parseSeqString (some [])
      let ignorable_emails ← decodeField d "ignorable_emails" parseSeqString (some [])
      let minimum_coverage ← decodeField d "minimum_coverage" parseOptI32 (some none)
      let standard_notice ← decodeField d "standard_notice" parseOptString (some none)
      let language ← decodeField d "language" parseOptString (some none)
      pure { key := key, short_name := short_name, name := name,
             category := category, owner := owner,
             homepage_url := homepage_url, notes := notes,
             is_deprecated := is_deprecated,
             spdx_license_key := spdx_license_key, text_urls := text_urls,
             osi_url := osi_url, osi_license_key := osi_license_key,
             faq_url := faq_url, other_urls := other_urls,
             is_exception := is_exception,
             other_spdx_license_keys := other_spdx_license_keys,
             ignorable_copyrights := ignorable_copyrights,
             ignorable_holders := ignorable_holders,
             ignorable_authors := ignorable_authors,
             ignorable_urls := ignorable_urls,
             ignorable_emails := ignorable_emails,
             minimum_coverage := minimum_coverage,
             standard_notice := standard_notice, language := language,
             text := "" }
    else .error .duplicateField

/-- Emit an optional string field, skipped when absent (`Option::is_none`). -/
def encodeOptStr (k : String) (v : Option String) : Doc :=
  match v with
  | some s => [(k, Value.vstr s)]
  | none => []

/-- Emit a sequence field, skipped when empty (`Vec::is_empty`). -/
def encodeSeq (k : String) (xs : List String) : Doc :=
  if xs.isEmpty then [] else [(k, Value.vseq (xs.map Value.vstr))]

/-- Emit a boolean field through `yes_from_bool`, skipped when false
(`is_false`). -/
def encodeBool (k : String) (b : Bool) : Doc :=
  if is_false b then [] else [(k, Value.vstr (yes_from_bool b))]

/-- Emit an optional integer field, skipped when absent (`Option::is_none`). -/
def encodeOptInt (k : String) (v : Option Int) : Doc :=
  match v with
  | some n => [(k, Value.vint n)]
  | none => []

/-- Encode a license record as a metadata document, following the serialize
derive on `ScancodeLicense`: fields in declaration order, each skipped when
its `skip_serializing_if` predicate holds, booleans through `yes_from_bool`,
the category as its external label, and `text` never emitted
(`serde(skip)`). -/
def encodeDoc (r : ScancodeLicense) : Doc :=
  [("key", Value.vstr r.key),
   ("short_name", Value.vstr r.short_name),
   ("name", Value.vstr r.name),
   ("category", Value.vstr (categoryLabel r.category)),
   ("owner", Value.vstr r.owner)]
  ++ encodeOptStr "homepage_url" r.homepage_url
  ++ encodeOptStr "notes" r.notes
  ++ encodeBool "is_deprecated" r.is_deprecated
  ++ encodeOptStr "spdx_license_key" r.spdx_license_key
  ++ encodeSeq "text_urls" r.text_urls
  ++ encodeOptStr "osi_url" r.osi_url
  ++ encodeOptStr "osi_license_key" r.osi_license_key
  ++ encodeOptStr "faq_url" r.faq_url
  ++ encodeSeq "other_urls" r.other_urls
  ++ encodeBool "is_exception" r.is_exception
  ++ encodeSeq "other_spdx_license_keys" r.other_spdx_license_keys
  ++ encodeSeq "ignorable_copyrights" r.ignorable_copyrights
  ++ encodeSeq "ignorable_holders" r.ignorable_holders
  ++ encodeSeq "ignorable_authors" r.ignorable_authors
  ++ encodeSeq "ignorable_urls" r.ignorable_urls
  ++ encodeSeq "ignorable_emails" r.ignorable_emails
  ++ encodeOptInt "minimum_coverage" r.minimum_coverage
  ++ encodeOptStr "standard_notice" r.standard_notice
  ++ encodeOptStr "language" r.language

/-- File name within the license directory, split into stem and extension the
way the Rust Path methods see it (the extension is the part after the last
dot). -/
structure EntryName where
  stem : String
  ext : Option String
deriving DecidableEq, Repr

/-- Rendered file name, as compared against the reserved index file. -/
def fileName (e : EntryName) : String :=
  match e.ext with
  | some x => e.stem ++ "." ++ x
  | none => e.stem

/-- Model of Path::with_extension: replace the extension. -/
def with_extension (e : EntryName) (newExt : String) : EntryName :=
  { stem := e.stem, ext := some newExt }

/-- Contents of one file of the modelled directory: either readable text or a
read failure (missing and unreadable files behave alike). -/
inductive FileData where
  | unreadable
  | contents (s : String)

/-- The files of the license directory, keyed by entry name. -/
abbrev FileSystem := List (EntryName × FileData)

/-- Model of std read_to_string on the directory: the text of a readable
file, an error for an unreadable or absent one. -/
def readFile (fs : FileSystem) (e : EntryName) : Except Unit String :=
  match fs.find? (fun p => p.1 == e) with
  | some (_, FileData.contents s) => .ok s
  | some (_, FileData.unreadable) => .error ()
  | none => .error ()

/-- The error enum `ScancodeError` of models.rs.  `Io` and `SerdeYaml` carry
the path field of the Rust variant; `OtherIo`, `Git` and `OtherSerdeYaml`
wrap only the foreign error and carry no path or URL. -/
inductive ScancodeError where
  | Io (path : String)
  | OtherIo
  | Git
  | SerdeYaml (path : String)
  | OtherSerdeYaml
deriving DecidableEq, Repr

/-- Origin information carried by an error: the path field when the variant
has one. -/
def errorOrigin : ScancodeError → Option String
  | .Io p => some p
  | .SerdeYaml p => some p
  | _ => none

/-- Modelled from the spec: the external YAML text parser (the syntactic
stage of serde_yaml::from_str, whose implementation lives outside this
repository).  It is kept abstract as a function from raw text to either a
parsed document or a syntax error. -/
abbrev YamlParser := String → Except Unit Doc

/-- The combination serde_yaml::from_str applied to `ScancodeLicense`: parse
the text syntactically, then decode the document; an error at either stage
is a serde_yaml error. -/
def serde_from_str (parse : YamlParser) (s : String) : Except Unit ScancodeLicense :=
  match parse s with
  | .error _ => .error ()
  | .ok d =>
    match decodeDoc d with
    | .error _ => .error ()
    | .ok r => .ok r

/-- Function `ScancodeLicense::from_yaml_file` of models.rs: read the
metadata file (read failure is fatal, wrapped as an Io error with the path),
parse and decode it (failure is fatal, wrapped as a SerdeYaml error with the
path), then read the companion text file with the LICENSE extension and
store its contents in `text`, falling back to the empty string when that
read fails. -/
def from_yaml_file (fs : FileSystem) (parse : YamlParser)
    (yaml_path : EntryName) : Except ScancodeError ScancodeLicense :=
  match readFile fs yaml_path with
  | .error _ => .error (ScancodeError.Io (fileName yaml_path))
  | .ok license_string =>
    match serde_from_str parse license_string with
    | .error _ => .error (ScancodeError.SerdeYaml (fileName yaml_path))
    | .ok license =>
      let text_path := with_extension yaml_path "LICENSE"
      let license_text := readFile fs text_path
      .ok { license with
            text := match license_text with
                    | .ok value => value
                    | .error _ => "" }

/-- The entry loop of `from_git_database` of import.rs: for each directory
entry (whose listing may itself fail, an OtherIo error), skip the reserved
index.yml name, decode every entry with the yml extension through
`from_yaml_file` propagating its error immediately, and append each decoded
record to the accumulated collection. -/
def walkEntries (fs : FileSystem) (parse : YamlParser) :
    List (Except Unit EntryName) → List ScancodeLicense →
    Except ScancodeError (List ScancodeLicense)
  | [], licenses => .ok licenses
  | entry :: rest, licenses =>
    match entry with
    | .error _ => .error ScancodeError.OtherIo
    | .ok path =>
      if fileName path = "index.yml" then walkEntries fs parse rest licenses
      else if path.ext = some "yml" then
        match from_yaml_file fs parse path with
        | .error e => .error e
        | .ok license => walkEntries fs parse rest (licenses ++ [license])
      else walkEntries fs parse rest licenses

/-- Function `from_git_database` of import.rs: create a temporary directory
(failure is an OtherIo error with no path), clone the repository (failure is
a Git error with no URL), list the license directory (failure is an Io error
with the directory path), then walk the entries accumulating decoded
records.  The clone and listing outcomes are passed in as data since they
are environment effects. -/
def from_git_database (tempdirResult : Except Unit Unit)
    (cloneResult : Except Unit Unit) (licenses_path : String)
    (read_dir_result : Except Unit (List (Except Unit EntryName)))
    (fs : FileSystem) (parse : YamlParser) :
    Except ScancodeError (List ScancodeLicense) :=
  match tempdirResult with
  | .error _ => .error ScancodeError.OtherIo
  | .ok _ =>
    match cloneResult with
    | .error _ => .error ScancodeError.Git
    | .ok _ =>
      match read_dir_result with
      | .error _ => .error (ScancodeError.Io licenses_path)
      | .ok entries => walkEntries fs parse entries []

theorem except_ok_bind {ε α β : Type} (a : α) (f : α → Except ε β) :
    (Except.ok (ε := ε) a >>= f) = f a := rfl

theorem except_error_bind {ε α β : Type} (e : ε) (f : α → Except ε β) :
    (Except.error (α := α) e >>= f) = Except.error e := rfl

theorem except_bind_eq_ok {ε α β : Type} {x : Except ε α} {f : α → Except ε β}
    {b : β} : (x >>= f) = .ok b ↔ ∃ a, x = .ok a ∧ f a = .ok b := by
  cases x with
  | ok a => simp [except_ok_bind]
  | error e => simp [except_error_bind]

theorem except_ok_or_error {ε α : Type} (x : Except ε α) :
    (∃ a, x = .ok a) ∨ (∃ e, x = .error e) := by
  cases x with
  | ok a => exact Or.inl ⟨a, rfl⟩
  | error e => exact Or.inr ⟨e, rfl⟩

theorem except_exists_error_iff {ε α : Type} (x : Except ε α) :
    (∃ e, x = .error e) ↔ ¬ ∃ a, x = .ok a := by
  cases x with
  | ok a => simp
  | error e => simp

theorem lookupField_append (l₁ l₂ : Doc) (q : String) :
    lookupField (l₁ ++ l₂) q = (lookupField l₁ q).or (lookupField l₂ q) := by
  induction l₁ with
  | nil => simp [lookupField]
  | cons p rest ih =>
    obtain ⟨k, v⟩ := p
    by_cases h : k = q
    · simp [lookupField, h]
    · simp [lookupField, h, ih]

theorem lookupField_encodeOptStr (k q : String) (v : Option String) :
    lookupField (encodeOptStr k v) q =
      if k = q then v.map Value.vstr else none := by
  cases v <;> simp [encodeOptStr, lookupField]

theorem lookupField_encodeSeq (k q : String) (xs : List String) :
    lookupField (encodeSeq k xs) q =
      if k = q then
        (if xs.isEmpty then none else some (Value.vseq (xs.map Value.vstr)))
      else none := by
  by_cases h : xs.isEmpty <;> simp [encodeSeq, lookupField, h]

theorem lookupField_encodeBool (k q : String) (b : Bool) :
    lookupField (encodeBool k b) q =
      if k = q then (if b then some (Value.vstr "yes") else none) else none := by
  cases b <;> simp [encodeBool, lookupField, is_false, yes_from_bool]

theorem lookupField_encodeOptInt (k q : String) (v : Option Int) :
    lookupField (encodeOptInt k v) q =
      if k = q then v.map Value.vint else none := by
  cases v <;> simp [encodeOptInt, lookupField]

theorem parseStringList_map_vstr (xs : List String) :
    parseStringList (xs.map Value.vstr) = some xs := by
  induction xs with
  | nil => simp [parseStringList]
  | cons x rest ih => simp [parseStringList, parseString, ih]

theorem decodeField_of_lookup_some {α : Type} {d : Doc} {k : String}
    {p : Value → Option α} {dflt : Option α} {v : Value} {a : α}
    (h : lookupField d k = some v) (hp : p v = some a) :
    decodeField d k p dflt = .ok a := by
  simp [decodeField, h, hp]

theorem decodeField_of_lookup_none {α : Type} {d : Doc} {k : String}
    {p : Value → Option α} {a : α}
    (h : lookupField d k = none) :
    decodeField d k p (some a) = .ok a := by
  simp [decodeField, h]

theorem lookupField_encodeDoc_key (r : ScancodeLicense) :
    lookupField (encodeDoc r) "key" =
      some (Value.vstr r.key) := by
  rw [encodeDoc]
  simp only [List.append_assoc]
  rw [lookupField_append]
  rw [show lookupField [("key", Value.vstr r.key),
      ("short_name", Value.vstr r.short_name), ("name", Value.vstr r.name),
      ("category", Value.vstr (categoryLabel r.category)),
      ("owner", Value.vstr r.owner)] "key" = some (Value.vstr r.key) from by simp [lookupField]]
  rw [Option.or_some]

theorem lookupField_encodeDoc_short_name (r : ScancodeLicense) :
    lookupField (encodeDoc r) "short_name" =
      some (Value.vstr r.short_name) := by
  rw [encodeDoc]
  simp only [List.append_assoc]
  rw [lookupField_append]
  rw [show lookupField [("key", Value.vstr r.key),
      ("short_name", Value.vstr r.short_name), ("name", Value.vstr r.name),
      ("category", Value.vstr (categoryLabel r.category)),
      ("owner", Value.vstr r.owner)] "short_name" = some (Value.vstr r.short_name) from by simp [lookupField]]
  rw [Option.or_some]

theorem lookupField_encodeDoc_name (r : ScancodeLicense) :
    lookupField (encodeDoc r) "name" =
      some (Value.vstr r.name) := by
  rw [encodeDoc]
  simp only [List.append_assoc]
  rw [lookupField_append]
  rw [show lookupField [("key", Value.vstr r.key),
      ("short_name", Value.vstr r.short_name), ("name", Value.vstr r.name),
      ("category", Value.vstr (categoryLabel r.category)),
      ("owner", Value.vstr r.owner)] "name" = some (Value.vstr r.name) from by simp [lookupField]]
  rw [Option.or_some]

theorem lookupField_encodeDoc_category (r : ScancodeLicense) :
    lookupField (encodeDoc r) "category" =
      some (Value.vstr (categoryLabel r.category)) := by
  rw [encodeDoc]
  simp only [List.append_assoc]
  rw [lookupField_append]
  rw [show lookupField [("key", Value.vstr r.key),
      ("short_name", Value.vstr r.short_name), ("name", Value.vstr r.name),
      ("category", Value.vstr (categoryLabel r.category)),
      ("owner", Value.vstr r.owner)] "category" = some (Value.vstr (categoryLabel r.category)) from by simp [lookupField]]
  rw [Option.or_some]

theorem lookupField_encodeDoc_owner (r : ScancodeLicense) :
    lookupField (encodeDoc r) "owner" =
      some (Value.vstr r.owner) := by
  rw [encodeDoc]
  simp only [List.append_assoc]
  rw [lookupField_append]
  rw [show lookupField [("key", Value.vstr r.key),
      ("short_name", Value.vstr r.short_name), ("name", Value.vstr r.name),
      ("category", Value.vstr (categoryLabel r.category)),
      ("owner", Value.vstr r.owner)] "owner" = some (Value.vstr r.owner) from by simp [lookupField]]
  rw [Option.or_some]

theorem lookupField_encodeDoc_homepage_url (r : ScancodeLicense) :
    lookupField (encodeDoc r) "homepage_url" =
      r.homepage_url.map Value.vstr := by
  rw [encodeDoc]
  simp only [List.append_assoc]
  rw [lookupField_append]
  rw [show lookupField [("key", Value.vstr r.key),
      ("short_name", Value.vstr r.short_name), ("name", Value.vstr r.name),
      ("category", Value.vstr (categoryLabel r.category)),
      ("owner", Value.vstr r.owner)] "homepage_url" = none from by simp [lookupField]]
  rw [Option.none_or]
  rw [lookupField_append, lookupField_encodeOptStr,
      if_pos (show ("homepage_url" : String) = "homepage_url" from rfl)]
  rw [lookupField_append, lookupField_encodeOptStr,
      if_neg (show ("notes" : String) ≠ "homepage_url" from by decide),
      Option.none_or]
  rw [lookupField_append, lookupField_encodeBool,
      if_neg (show ("is_deprecated" : String) ≠ "homepage_url" from by decide),
      Option.none_or]
  rw [lookupField_append, lookupField_encodeOptStr,
      if_neg (show ("spdx_license_key" : String) ≠ "homepage_url" from by decide),
      Option.none_or]
  rw [lookupField_append, lookupField_encodeSeq,
      if_neg (show ("text_urls" : String) ≠ "homepage_url" from by decide),
      Option.none_or]
  rw [lookupField_append, lookupField_encodeOptStr,
      if_neg (show ("osi_url" : String) ≠ "homepage_url" from by decide),
      Option.none_or]
  rw [lookupField_append, lookupField_encodeOptStr,
      if_neg (show ("osi_license_key" : String) ≠ "homepage_url" from by decide),
      Option.none_or]
  rw [lookupField_append, lookupField_encodeOptStr,
      if_neg (show ("faq_url" : String) ≠ "homepage_url" from by decide),
      Option.none_or]
  rw [lookupField_append, lookupField_encodeSeq,
      if_neg (show ("other_urls" : String) ≠ "homepage_url" from by decide),
      Option.none_or]
  rw [lookupField_append, lookupField_encodeBool,
      if_neg (show ("is_exception" : String) ≠ "homepage_url" from by decide),
      Option.none_or]
  rw [lookupField_append, lookupField_encodeSeq,
      if_neg (show ("other_spdx_license_keys" : String) ≠ "homepage_url" from by decide),
      Option.none_or]
  rw [lookupField_append, lookupField_encodeSeq,
      if_neg (show ("ignorable_copyrights" : String) ≠ "homepage_url" from by decide),
      Option.none_or]
  rw [lookupField_append, lookupField_encodeSeq,
      if_neg (show ("ignorable_holders" : String) ≠ "homepage_url" from by decide),
      Option.none_or]
  rw [lookupField_append, lookupField_encodeSeq,
      if_neg (show ("ignorable_authors" : String) ≠ "homepage_url" from by decide),
      Option.none_or]
  rw [lookupField_append, lookupField_encodeSeq,
      if_neg (show ("ignorable_urls" : String) ≠ "homepage_url" from by decide),
      Option.none_or]
  rw [lookupField_append, lookupField_encodeSeq,
      if_neg (show ("ignorable_emails" : String) ≠ "homepage_url" from by decide),
      Option.none_or]
  rw [lookupField_append, lookupField_encodeOptInt,
      if_neg (show ("minimum_coverage" : String) ≠ "homepage_url" from by decide),
      Option.none_or]
  rw [lookupField_append, lookupField_encodeOptStr,
      if_neg (show ("standard_notice" : String) ≠ "homepage_url" from by decide),
      Option.none_or]
  rw [lookupField_encodeOptStr,
      if_neg (show ("language" : String) ≠ "homepage_url" from by decide)]
  rw [Option.or_none]

theorem lookupField_encodeDoc_notes (r : ScancodeLicense) :
    lookupField (encodeDoc r) "notes" =
      r.notes.map Value.vstr := by
  rw [encodeDoc]
  simp only [List.append_assoc]
  rw [lookupField_append]
  rw [show lookupField [("key", Value.vstr r.key),
      ("short_name", Value.vstr r.short_name), ("name", Value.vstr r.name),
      ("category", Value.vstr (categoryLabel r.category)),
      ("owner", Value.vstr r.owner)] "notes" = none from by simp [lookupField]]
  rw [Option.none_or]
  rw [lookupField_append, lookupField_encodeOptStr,
      if_neg (show ("homepage_url" : String) ≠ "notes" from by decide),
      Option.none_or]
  rw [lookupField_append, lookupField_encodeOptStr,
      if_pos (show ("notes" : String) = "notes" from rfl)]
  rw [lookupField_append, lookupField_encodeBool,
      if_neg (show ("is_deprecated" : String) ≠ "notes" from by decide),
      Option.none_or]
  rw [lookupField_append, lookupField_encodeOptStr,
      if_neg (show ("spdx_license_key" : String) ≠ "notes" from by decide),
      Option.none_or]
  rw [lookupField_append, lookupField_encodeSeq,
      if_neg (show ("text_urls" : String) ≠ "notes" from by decide),
      Option.none_or]
  rw [lookupField_append, lookupField_encodeOptStr,
      if_neg (show ("osi_url" : String) ≠ "notes" from by decide),
      Option.none_or]
  rw [lookupField_append, lookupField_encodeOptStr,
      if_neg (show ("osi_license_key" : String) ≠ "notes" from by decide),
      Option.none_or]
  rw [lookupField_append, lookupField_encodeOptStr,
      if_neg (show ("faq_url" : String) ≠ "notes" from by decide),
      Option.none_or]
  rw [lookupField_append, lookupField_encodeSeq,
      if_neg (show ("other_urls" : String) ≠ "notes" from by decide),
      Option.none_or]
  rw [lookupField_append, lookupField_encodeBool,
      if_neg (show ("is_exception" : String) ≠ "notes" from by decide),
      Option.none_or]
  rw [lookupField_append, lookupField_encodeSeq,
      if_neg (show ("other_spdx_license_keys" : String) ≠ "notes" from by decide),
      Option.none_or]
  rw [lookupField_append, lookupField_encodeSeq,
      if_neg (show ("ignorable_copyrights" : String) ≠ "notes" from by decide),
      Option.none_or]
  rw [lookupField_append, lookupField_encodeSeq,
      if_neg (show ("ignorable_holders" : String) ≠ "notes" from by decide),
      Option.none_or]
  rw [lookupField_append, lookupField_encodeSeq,
      if_neg (show ("ignorable_authors" : String) ≠ "notes" from by decide),
      Option.none_or]
  rw [lookupField_append, lookupField_encodeSeq,
      if_neg (show ("ignorable_urls" : String) ≠ "notes" from by decide),
      Option.none_or]
  rw [lookupField_append, lookupField_encodeSeq,
      if_neg (show ("ignorable_emails" : String) ≠ "notes" from by decide),
      Option.none_or]
  rw [lookupField_append, lookupField_encodeOptInt,
      if_neg (show ("minimum_coverage" : String) ≠ "notes" from by decide),
      Option.none_or]
  rw [lookupField_append, lookupField_encodeOptStr,
      if_neg (show ("standard_notice" : String) ≠ "notes" from by decide),
      Option.none_or]
  rw [lookupField_encodeOptStr,
      if_neg (show ("language" : String) ≠ "notes" from by decide)]
  rw [Option.or_none]

theorem lookupField_encodeDoc_is_deprecated (r : ScancodeLicense) :
    lookupField (encodeDoc r) "is_deprecated" =
      (if r.is_deprecated then some (Value.vstr "yes") else none) := by
  rw [encodeDoc]
  simp only [List.append_assoc]
  rw [lookupField_append]
  rw [show lookupField [("key", Value.vstr r.key),
      ("short_name", Value.vstr r.short_name), ("name", Value.vstr r.name),
      ("category", Value.vstr (categoryLabel r.category)),
      ("owner", Value.vstr r.owner)] "is_deprecated" = none from by simp [lookupField]]
  rw [Option.none_or]
  rw [lookupField_append, lookupField_encodeOptStr,
      if_neg (show ("homepage_url" : String) ≠ "is_deprecated" from by decide),
      Option.none_or]
  rw [lookupField_append, lookupField_encodeOptStr,
      if_neg (show ("notes" : String) ≠ "is_deprecated" from by decide),
      Option.none_or]
  rw [lookupField_append, lookupField_encodeBool,
      if_pos (show ("is_deprecated" : String) = "is_deprecated" from rfl)]
  rw [lookupField_append, lookupField_encodeOptStr,
      if_neg (show ("spdx_license_key" : String) ≠ "is_deprecated" from by decide),
      Option.none_or]
  rw [lookupField_append, lookupField_encodeSeq,
      if_neg (show ("text_urls" : String) ≠ "is_deprecated" from by decide),
      Option.none_or]
  rw [lookupField_append, lookupField_encodeOptStr,
      if_neg (show ("osi_url" : String) ≠ "is_deprecated" from by decide),
      Option.none_or]
  rw [lookupField_append, lookupField_encodeOptStr,
      if_neg (show ("osi_license_key" : String) ≠ "is_deprecated" from by decide),
      Option.none_or]
  rw [lookupField_append, lookupField_encodeOptStr,
      if_neg (show ("faq_url" : String) ≠ "is_deprecated" from by decide),
      Option.none_or]
  rw [lookupField_append, lookupField_encodeSeq,
      if_neg (show ("other_urls" : String) ≠ "is_deprecated" from by decide),
      Option.none_or]
  rw [lookupField_append, lookupField_encodeBool,
      if_neg (show ("is_exception" : String) ≠ "is_deprecated" from by decide),
      Option.none_or]
  rw [lookupField_append, lookupField_encodeSeq,
      if_neg (show ("other_spdx_license_keys" : String) ≠ "is_deprecated" from by decide),
      Option.none_or]
  rw [lookupField_append, lookupField_encodeSeq,
      if_neg (show ("ignorable_copyrights" : String) ≠ "is_deprecated" from by decide),
      Option.none_or]
  rw [lookupField_append, lookupField_encodeSeq,
      if_neg (show ("ignorable_holders" : String) ≠ "is_deprecated" from by decide),
      Option.none_or]
  rw [lookupField_append, lookupField_encodeSeq,
      if_neg (show ("ignorable_authors" : String) ≠ "is_deprecated" from by decide),
      Option.none_or]
  rw [lookupField_append, lookupField_encodeSeq,
      if_neg (show ("ignorable_urls" : String) ≠ "is_deprecated" from by decide),
      Option.none_or]
  rw [lookupField_append, lookupField_encodeSeq,
      if_neg (show ("ignorable_emails" : String) ≠ "is_deprecated" from by decide),
      Option.none_or]
  rw [lookupField_append, lookupField_encodeOptInt,
      if_neg (show ("minimum_coverage" : String) ≠ "is_deprecated" from by decide),
      Option.none_or]
  rw [lookupField_append, lookupField_encodeOptStr,
      if_neg (show ("standard_notice" : String) ≠ "is_deprecated" from by decide),
      Option.none_or]
  rw [lookupField_encodeOptStr,
      if_neg (show ("language" : String) ≠ "is_deprecated" from by decide)]
  rw [Option.or_none]

theorem lookupField_encodeDoc_spdx_license_key (r : ScancodeLicense) :
    lookupField (encodeDoc r) "spdx_license_key" =
      r.spdx_license_key.map Value.vstr := by
  rw [encodeDoc]
  simp only [List.append_assoc]
  rw [lookupField_append]
  rw [show lookupField [("key", Value.vstr r.key),
      ("short_name", Value.vstr r.short_name), ("name", Value.vstr r.name),
      ("category", Value.vstr (categoryLabel r.category)),
      ("owner", Value.vstr r.owner)] "spdx_license_key" = none from by simp [lookupField]]
  rw [Option.none_or]
  rw [lookupField_append, lookupField_encodeOptStr,
      if_neg (show ("homepage_url" : String) ≠ "spdx_license_key" from by decide),
      Option.none_or]
  rw [lookupField_append, lookupField_encodeOptStr,
      if_neg (show ("notes" : String) ≠ "spdx_license_key" from by decide),
      Option.none_or]
  rw [lookupField_append, lookupField_encodeBool,
      if_neg (show ("is_deprecated" : String) ≠ "spdx_license_key" from by decide),
      Option.none_or]
  rw [lookupField_append, lookupField_encodeOptStr,
      if_pos (show ("spdx_license_key" : String) = "spdx_license_key" from rfl)]
  rw [lookupField_append, lookupField_encodeSeq,
      if_neg (show ("text_urls" : String) ≠ "spdx_license_key" from by decide),
      Option.none_or]
  rw [lookupField_append, lookupField_encodeOptStr,
      if_neg (show ("osi_url" : String) ≠ "spdx_license_key" from by decide),
      Option.none_or]
  rw [lookupField_append, lookupField_encodeOptStr,
      if_neg (show ("osi_license_key" : String) ≠ "spdx_license_key" from by decide),
      Option.none_or]
  rw [lookupField_append, lookupField_encodeOptStr,
      if_neg (show ("faq_url" : String) ≠ "spdx_license_key" from by decide),
      Option.none_or]
  rw [lookupField_append, lookupField_encodeSeq,
      if_neg (show ("other_urls" : String) ≠ "spdx_license_key" from by decide),
      Option.none_or]
  rw [lookupField_append, lookupField_encodeBool,
      if_neg (show ("is_exception" : String) ≠ "spdx_license_key" from by decide),
      Option.none_or]
  rw [lookupField_append, lookupField_encodeSeq,
      if_neg (show ("other_spdx_license_keys" : String) ≠ "spdx_license_key" from by decide),
      Option.none_or]
  rw [lookupField_append, lookupField_encodeSeq,
      if_neg (show ("ignorable_copyrights" : String) ≠ "spdx_license_key" from by decide),
      Option.none_or]
  rw [lookupField_append, lookupField_encodeSeq,
      if_neg (show ("ignorable_holders" : String) ≠ "spdx_license_key" from by decide),
      Option.none_or]
  rw [lookupField_append, lookupField_encodeSeq,
      if_neg (show ("ignorable_authors" : String) ≠ "spdx_license_key" from by decide),
      Option.none_or]
  rw [lookupField_append, lookupField_encodeSeq,
      if_neg (show ("ignorable_urls" : String) ≠ "spdx_license_key" from by decide),
      Option.none_or]
  rw [lookupField_append, lookupField_encodeSeq,
      if_neg (show ("ignorable_emails" : String) ≠ "spdx_license_key" from by decide),
      Option.none_or]
  rw [lookupField_append, lookupField_encodeOptInt,
      if_neg (show ("minimum_coverage" : String) ≠ "spdx_license_key" from by decide),
      Option.none_or]
  rw [lookupField_append, lookupField_encodeOptStr,
      if_neg (show ("standard_notice" : String) ≠ "spdx_license_key" from by decide),
      Option.none_or]
  rw [lookupField_encodeOptStr,
      if_neg (show ("language" : String) ≠ "spdx_license_key" from by decide)]
  rw [Option.or_none]

theorem lookupField_encodeDoc_text_urls (r : ScancodeLicense) :
    lookupField (encodeDoc r) "text_urls" =
      (if r.text_urls.isEmpty then none
       else some (Value.vseq (r.text_urls.map Value.vstr))) := by
  rw [encodeDoc]
  simp only [List.append_assoc]
  rw [lookupField_append]
  rw [show lookupField [("key", Value.vstr r.key),
      ("short_name", Value.vstr r.short_name), ("name", Value.vstr r.name),
      ("category", Value.vstr (categoryLabel r.category)),
      ("owner", Value.vstr r.owner)] "text_urls" = none from by simp [lookupField]]
  rw [Option.none_or]
  rw [lookupField_append, lookupField_encodeOptStr,
      if_neg (show ("homepage_url" : String) ≠ "text_urls" from by decide),
      Option.none_or]
  rw [lookupField_append, lookupField_encodeOptStr,
      if_neg (show ("notes" : String) ≠ "text_urls" from by decide),
      Option.none_or]
  rw [lookupField_append, lookupField_encodeBool,
      if_neg (show ("is_deprecated" : String) ≠ "text_urls" from by decide),
      Option.none_or]
  rw [lookupField_append, lookupField_encodeOptStr,
      if_neg (show ("spdx_license_key" : String) ≠ "text_urls" from by decide),
      Option.none_or]
  rw [lookupField_append, lookupField_encodeSeq,
      if_pos (show ("text_urls" : String) = "text_urls" from rfl)]
  rw [lookupField_append, lookupField_encodeOptStr,
      if_neg (show ("osi_url" : String) ≠ "text_urls" from by decide),
      Option.none_or]
  rw [lookupField_append, lookupField_encodeOptStr,
      if_neg (show ("osi_license_key" : String) ≠ "text_urls" from by decide),
      Option.none_or]
  rw [lookupField_append, lookupField_encodeOptStr,
      if_neg (show ("faq_url" : String) ≠ "text_urls" from by decide),
      Option.none_or]
  rw [lookupField_append, lookupField_encodeSeq,
      if_neg (show ("other_urls" : String) ≠ "text_urls" from by decide),
      Option.none_or]
  rw [lookupField_append, lookupField_encodeBool,
      if_neg (show ("is_exception" : String) ≠ "text_urls" from by decide),
      Option.none_or]
  rw [lookupField_append, lookupField_encodeSeq,
      if_neg (show ("other_spdx_license_keys" : String) ≠ "text_urls" from by decide),
      Option.none_or]
  rw [lookupField_append, lookupField_encodeSeq,
      if_neg (show ("ignorable_copyrights" : String) ≠ "text_urls" from by decide),
      Option.none_or]
  rw [lookupField_append, lookupField_encodeSeq,
      if_neg (show ("ignorable_holders" : String) ≠ "text_urls" from by decide),
      Option.none_or]
  rw [lookupField_append, lookupField_encodeSeq,
      if_neg (show ("ignorable_authors" : String) ≠ "text_urls" from by decide),
      Option.none_or]
  rw [lookupField_append, lookupField_encodeSeq,
      if_neg (show ("ignorable_urls" : String) ≠ "text_urls" from by decide),
      Option.none_or]
  rw [lookupField_append, lookupField_encodeSeq,
      if_neg (show ("ignorable_emails" : String) ≠ "text_urls" from by decide),
      Option.none_or]
  rw [lookupField_append, lookupField_encodeOptInt,
      if_neg (show ("minimum_coverage" : String) ≠ "text_urls" from by decide),
      Option.none_or]
  rw [lookupField_append, lookupField_encodeOptStr,
      if_neg (show ("standard_notice" : String) ≠ "text_urls" from by decide),
      Option.none_or]
  rw [lookupField_encodeOptStr,
      if_neg (show ("language" : String) ≠ "text_urls" from by decide)]
  rw [Option.or_none]

theorem lookupField_encodeDoc_osi_url (r : ScancodeLicense) :
    lookupField (encodeDoc r) "osi_url" =
      r.osi_url.map Value.vstr := by
  rw [encodeDoc]
  simp only [List.append_assoc]
  rw [lookupField_append]
  rw [show lookupField [("key", Value.vstr r.key),
      ("short_name", Value.vstr r.short_name), ("name", Value.vstr r.name),
      ("category", Value.vstr (categoryLabel r.category)),
      ("owner", Value.vstr r.owner)] "osi_url" = none from by simp [lookupField]]
  rw [Option.none_or]
  rw [lookupField_append, lookupField_encodeOptStr,
      if_neg (show ("homepage_url" : String) ≠ "osi_url" from by decide),
      Option.none_or]
  rw [lookupField_append, lookupField_encodeOptStr,
      if_neg (show ("notes" : String) ≠ "osi_url" from by decide),
      Option.none_or]
  rw [lookupField_append, lookupField_encodeBool,
      if_neg (show ("is_deprecated" : String) ≠ "osi_url" from by decide),
      Option.none_or]
  rw [lookupField_append, lookupField_encodeOptStr,
      if_neg (show ("spdx_license_key" : String) ≠ "osi_url" from by decide),
      Option.none_or]
  rw [lookupField_append, lookupField_encodeSeq,
      if_neg (show ("text_urls" : String) ≠ "osi_url" from by decide),
      Option.none_or]
  rw [lookupField_append, lookupField_encodeOptStr,
      if_pos (show ("osi_url" : String) = "osi_url" from rfl)]
  rw [lookupField_append, lookupField_encodeOptStr,
      if_neg (show ("osi_license_key" : String) ≠ "osi_url" from by decide),
      Option.none_or]
  rw [lookupField_append, lookupField_encodeOptStr,
      if_neg (show ("faq_url" : String) ≠ "osi_url" from by decide),
      Option.none_or]
  rw [lookupField_append, lookupField_encodeSeq,
      if_neg (show ("other_urls" : String) ≠ "osi_url" from by decide),
      Option.none_or]
  rw [lookupField_append, lookupField_encodeBool,
      if_neg (show ("is_exception" : String) ≠ "osi_url" from by decide),
      Option.none_or]
  rw [lookupField_append, lookupField_encodeSeq,
      if_neg (show ("other_spdx_license_keys" : String) ≠ "osi_url" from by decide),
      Option.none_or]
  rw [lookupField_append, lookupField_encodeSeq,
      if_neg (show ("ignorable_copyrights" : String) ≠ "osi_url" from by decide),
      Option.none_or]
  rw [lookupField_append, lookupField_encodeSeq,
      if_neg (show ("ignorable_holders" : String) ≠ "osi_url" from by decide),
      Option.none_or]
  rw [lookupField_append, lookupField_encodeSeq,
      if_neg (show ("ignorable_authors" : String) ≠ "osi_url" from by decide),
      Option.none_or]
  rw [lookupField_append, lookupField_encodeSeq,
      if_neg (show ("ignorable_urls" : String) ≠ "osi_url" from by decide),
      Option.none_or]
  rw [lookupField_append, lookupField_encodeSeq,
      if_neg (show ("ignorable_emails" : String) ≠ "osi_url" from by decide),
      Option.none_or]
  rw [lookupField_append, lookupField_encodeOptInt,
      if_neg (show ("minimum_coverage" : String) ≠ "osi_url" from by decide),
      Option.none_or]
  rw [lookupField_append, lookupField_encodeOptStr,
      if_neg (show ("standard_notice" : String) ≠ "osi_url" from by decide),
      Option.none_or]
  rw [lookupField_encodeOptStr,
      if_neg (show ("language" : String) ≠ "osi_url" from by decide)]
  rw [Option.or_none]

theorem lookupField_encodeDoc_osi_license_key (r : ScancodeLicense) :
    lookupField (encodeDoc r) "osi_license_key" =
      r.osi_license_key.map Value.vstr := by
  rw [encodeDoc]
  simp only [List.append_assoc]
  rw [lookupField_append]
  rw [show lookupField [("key", Value.vstr r.key),
      ("short_name", Value.vstr r.short_name), ("name", Value.vstr r.name),
      ("category", Value.vstr (categoryLabel r.category)),
      ("owner", Value.vstr r.owner)] "osi_license_key" = none from by simp [lookupField]]
  rw [Option.none_or]
  rw [lookupField_append, lookupField_encodeOptStr,
      if_neg (show ("homepage_url" : String) ≠ "osi_license_key" from by decide),
      Option.none_or]
  rw [lookupField_append, lookupField_encodeOptStr,
      if_neg (show ("notes" : String) ≠ "osi_license_key" from by decide),
      Option.none_or]
  rw [lookupField_append, lookupField_encodeBool,
      if_neg (show ("is_deprecated" : String) ≠ "osi_license_key" from by decide),
      Option.none_or]
  rw [lookupField_append, lookupField_encodeOptStr,
      if_neg (show ("spdx_license_key" : String) ≠ "osi_license_key" from by decide),
      Option.none_or]
  rw [lookupField_append, lookupField_encodeSeq,
      if_neg (show ("text_urls" : String) ≠ "osi_license_key" from by decide),
      Option.none_or]
  rw [lookupField_append, lookupField_encodeOptStr,
      if_neg (show ("osi_url" : String) ≠ "osi_license_key" from by decide),
      Option.none_or]
  rw [lookupField_append, lookupField_encodeOptStr,
      if_pos (show ("osi_license_key" : String) = "osi_license_key" from rfl)]
  rw [lookupField_append, lookupField_encodeOptStr,
      if_neg (show ("faq_url" : String) ≠ "osi_license_key" from by decide),
      Option.none_or]
  rw [lookupField_append, lookupField_encodeSeq,
      if_neg (show ("other_urls" : String) ≠ "osi_license_key" from by decide),
      Option.none_or]
  rw [lookupField_append, lookupField_encodeBool,
      if_neg (show ("is_exception" : String) ≠ "osi_license_key" from by decide),
      Option.none_or]
  rw [lookupField_append, lookupField_encodeSeq,
      if_neg (show ("other_spdx_license_keys" : String) ≠ "osi_license_key" from by decide),
      Option.none_or]
  rw [lookupField_append, lookupField_encodeSeq,
      if_neg (show ("ignorable_copyrights" : String) ≠ "osi_license_key" from by decide),
      Option.none_or]
  rw [lookupField_append, lookupField_encodeSeq,
      if_neg (show ("ignorable_holders" : String) ≠ "osi_license_key" from by decide),
      Option.none_or]
  rw [lookupField_append, lookupField_encodeSeq,
      if_neg (show ("ignorable_authors" : String) ≠ "osi_license_key" from by decide),
      Option.none_or]
  rw [lookupField_append, lookupField_encodeSeq,
      if_neg (show ("ignorable_urls" : String) ≠ "osi_license_key" from by decide),
      Option.none_or]
  rw [lookupField_append, lookupField_encodeSeq,
      if_neg (show ("ignorable_emails" : String) ≠ "osi_license_key" from by decide),
      Option.none_or]
  rw [lookupField_append, lookupField_encodeOptInt,
      if_neg (show ("minimum_coverage" : String) ≠ "osi_license_key" from by decide),
      Option.none_or]
  rw [lookupField_append, lookupField_encodeOptStr,
      if_neg (show ("standard_notice" : String) ≠ "osi_license_key" from by decide),
      Option.none_or]
  rw [lookupField_encodeOptStr,
      if_neg (show ("language" : String) ≠ "osi_license_key" from by decide)]
  rw [Option.or_none]

theorem lookupField_encodeDoc_faq_url (r : ScancodeLicense) :
    lookupField (encodeDoc r) "faq_url" =
      r.faq_url.map Value.vstr := by
  rw [encodeDoc]
  simp only [List.append_assoc]
  rw [lookupField_append]
  rw [show lookupField [("key", Value.vstr r.key),
      ("short_name", Value.vstr r.short_name), ("name", Value.vstr r.name),
      ("category", Value.vstr (categoryLabel r.category)),
      ("owner", Value.vstr r.owner)] "faq_url" = none from by simp [lookupField]]
  rw [Option.none_or]
  rw [lookupField_append, lookupField_encodeOptStr,
      if_neg (show ("homepage_url" : String) ≠ "faq_url" from by decide),
      Option.none_or]
  rw [lookupField_append, lookupField_encodeOptStr,
      if_neg (show ("notes" : String) ≠ "faq_url" from by decide),
      Option.none_or]
  rw [lookupField_append, lookupField_encodeBool,
      if_neg (show ("is_deprecated" : String) ≠ "faq_url" from by decide),
      Option.none_or]
  rw [lookupField_append, lookupField_encodeOptStr,
      if_neg (show ("spdx_license_key" : String) ≠ "faq_url" from by decide),
      Option.none_or]
  rw [lookupField_append, lookupField_encodeSeq,
      if_neg (show ("text_urls" : String) ≠ "faq_url" from by decide),
      Option.none_or]
  rw [lookupField_append, lookupField_encodeOptStr,
      if_neg (show ("osi_url" : String) ≠ "faq_url" from by decide),
      Option.none_or]
  rw [lookupField_append, lookupField_encodeOptStr,
      if_neg (show ("osi_license_key" : String) ≠ "faq_url" from by decide),
      Option.none_or]
  rw [lookupField_append, lookupField_encodeOptStr,
      if_pos (show ("faq_url" : String) = "faq_url" from rfl)]
  rw [lookupField_append, lookupField_encodeSeq,
      if_neg (show ("other_urls" : String) ≠ "faq_url" from by decide),
      Option.none_or]
  rw [lookupField_append, lookupField_encodeBool,
      if_neg (show ("is_exception" : String) ≠ "faq_url" from by decide),
      Option.none_or]
  rw [lookupField_append, lookupField_encodeSeq,
      if_neg (show ("other_spdx_license_keys" : String) ≠ "faq_url" from by decide),
      Option.none_or]
  rw [lookupField_append, lookupField_encodeSeq,
      if_neg (show ("ignorable_copyrights" : String) ≠ "faq_url" from by decide),
      Option.none_or]
  rw [lookupField_append, lookupField_encodeSeq,
      if_neg (show ("ignorable_holders" : String) ≠ "faq_url" from by decide),
      Option.none_or]
  rw [lookupField_append, lookupField_encodeSeq,
      if_neg (show ("ignorable_authors" : String) ≠ "faq_url" from by decide),
      Option.none_or]
  rw [lookupField_append, lookupField_encodeSeq,
      if_neg (show ("ignorable_urls" : String) ≠ "faq_url" from by decide),
      Option.none_or]
  rw [lookupField_append, lookupField_encodeSeq,
      if_neg (show ("ignorable_emails" : String) ≠ "faq_url" from by decide),
      Option.none_or]
  rw [lookupField_append, lookupField_encodeOptInt,
      if_neg (show ("minimum_coverage" : String) ≠ "faq_url" from by decide),
      Option.none_or]
  rw [lookupField_append, lookupField_encodeOptStr,
      if_neg (show ("standard_notice" : String) ≠ "faq_url" from by decide),
      Option.none_or]
  rw [lookupField_encodeOptStr,
      if_neg (show ("language" : String) ≠ "faq_url" from by decide)]
  rw [Option.or_none]

theorem lookupField_encodeDoc_other_urls (r : ScancodeLicense) :
    lookupField (encodeDoc r) "other_urls" =
      (if r.other_urls.isEmpty then none
       else some (Value.vseq (r.other_urls.map Value.vstr))) := by
  rw [encodeDoc]
  simp only [List.append_assoc]
  rw [lookupField_append]
  rw [show lookupField [("key", Value.vstr r.key),
      ("short_name", Value.vstr r.short_name), ("name", Value.vstr r.name),
      ("category", Value.vstr (categoryLabel r.category)),
      ("owner", Value.vstr r.owner)] "other_urls" = none from by simp [lookupField]]
  rw [Option.none_or]
  rw [lookupField_append, lookupField_encodeOptStr,
      if_neg (show ("homepage_url" : String) ≠ "other_urls" from by decide),
      Option.none_or]
  rw [lookupField_append, lookupField_encodeOptStr,
      if_neg (show ("notes" : String) ≠ "other_urls" from by decide),
      Option.none_or]
  rw [lookupField_append, lookupField_encodeBool,
      if_neg (show ("is_deprecated" : String) ≠ "other_urls" from by decide),
      Option.none_or]
  rw [lookupField_append, lookupField_encodeOptStr,
      if_neg (show ("spdx_license_key" : String) ≠ "other_urls" from by decide),
      Option.none_or]
  rw [lookupField_append, lookupField_encodeSeq,
      if_neg (show ("text_urls" : String) ≠ "other_urls" from by decide),
      Option.none_or]
  rw [lookupField_append, lookupField_encodeOptStr,
      if_neg (show ("osi_url" : String) ≠ "other_urls" from by decide),
      Option.none_or]
  rw [lookupField_append, lookupField_encodeOptStr,
      if_neg (show ("osi_license_key" : String) ≠ "other_urls" from by decide),
      Option.none_or]
  rw [lookupField_append, lookupField_encodeOptStr,
      if_neg (show ("faq_url" : String) ≠ "other_urls" from by decide),
      Option.none_or]
  rw [lookupField_append, lookupField_encodeSeq,
      if_pos (show ("other_urls" : String) = "other_urls" from rfl)]
  rw [lookupField_append, lookupField_encodeBool,
      if_neg (show ("is_exception" : String) ≠ "other_urls" from by decide),
      Option.none_or]
  rw [lookupField_append, lookupField_encodeSeq,
      if_neg (show ("other_spdx_license_keys" : String) ≠ "other_urls" from by decide),
      Option.none_or]
  rw [lookupField_append, lookupField_encodeSeq,
      if_neg (show ("ignorable_copyrights" : String) ≠ "other_urls" from by decide),
      Option.none_or]
  rw [lookupField_append, lookupField_encodeSeq,
      if_neg (show ("ignorable_holders" : String) ≠ "other_urls" from by decide),
      Option.none_or]
  rw [lookupField_append, lookupField_encodeSeq,
      if_neg (show ("ignorable_authors" : String) ≠ "other_urls" from by decide),
      Option.none_or]
  rw [lookupField_append, lookupField_encodeSeq,
      if_neg (show ("ignorable_urls" : String) ≠ "other_urls" from by decide),
      Option.none_or]
  rw [lookupField_append, lookupField_encodeSeq,
      if_neg (show ("ignorable_emails" : String) ≠ "other_urls" from by decide),
      Option.none_or]
  rw [lookupField_append, lookupField_encodeOptInt,
      if_neg (show ("minimum_coverage" : String) ≠ "other_urls" from by decide),
      Option.none_or]
  rw [lookupField_append, lookupField_encodeOptStr,
      if_neg (show ("standard_notice" : String) ≠ "other_urls" from by decide),
      Option.none_or]
  rw [lookupField_encodeOptStr,
      if_neg (show ("language" : String) ≠ "other_urls" from by decide)]
  rw [Option.or_none]

theorem lookupField_encodeDoc_is_exception (r : ScancodeLicense) :
    lookupField (encodeDoc r) "is_exception" =
      (if r.is_exception then some (Value.vstr "yes") else none) := by
  rw [encodeDoc]
  simp only [List.append_assoc]
  rw [lookupField_append]
  rw [show lookupField [("key", Value.vstr r.key),
      ("short_name", Value.vstr r.short_name), ("name", Value.vstr r.name),
      ("category", Value.vstr (categoryLabel r.category)),
      ("owner", Value.vstr r.owner)] "is_exception" = none from by simp [lookupField]]
  rw [Option.none_or]
  rw [lookupField_append, lookupField_encodeOptStr,
      if_neg (show ("homepage_url" : String) ≠ "is_exception" from by decide),
      Option.none_or]
  rw [lookupField_append, lookupField_encodeOptStr,
      if_neg (show ("notes" : String) ≠ "is_exception" from by decide),
      Option.none_or]
  rw [lookupField_append, lookupField_encodeBool,
      if_neg (show ("is_deprecated" : String) ≠ "is_exception" from by decide),
      Option.none_or]
  rw [lookupField_append, lookupField_encodeOptStr,
      if_neg (show ("spdx_license_key" : String) ≠ "is_exception" from by decide),
      Option.none_or]
  rw [lookupField_append, lookupField_encodeSeq,
      if_neg (show ("text_urls" : String) ≠ "is_exception" from by decide),
      Option.none_or]
  rw [lookupField_append, lookupField_encodeOptStr,
      if_neg (show ("osi_url" : String) ≠ "is_exception" from by decide),
      Option.none_or]
  rw [lookupField_append, lookupField_encodeOptStr,
      if_neg (show ("osi_license_key" : String) ≠ "is_exception" from by decide),
      Option.none_or]
  rw [lookupField_append, lookupField_encodeOptStr,
      if_neg (show ("faq_url" : String) ≠ "is_exception" from by decide),
      Option.none_or]
  rw [lookupField_append, lookupField_encodeSeq,
      if_neg (show ("other_urls" : String) ≠ "is_exception" from by decide),
      Option.none_or]
  rw [lookupField_append, lookupField_encodeBool,
      if_pos (show ("is_exception" : String) = "is_exception" from rfl)]
  rw [lookupField_append, lookupField_encodeSeq,
      if_neg (show ("other_spdx_license_keys" : String) ≠ "is_exception" from by decide),
      Option.none_or]
  rw [lookupField_append, lookupField_encodeSeq,
      if_neg (show ("ignorable_copyrights" : String) ≠ "is_exception" from by decide),
      Option.none_or]
  rw [lookupField_append, lookupField_encodeSeq,
      if_neg (show ("ignorable_holders" : String) ≠ "is_exception" from by decide),
      Option.none_or]
  rw [lookupField_append, lookupField_encodeSeq,
      if_neg (show ("ignorable_authors" : String) ≠ "is_exception" from by decide),
      Option.none_or]
  rw [lookupField_append, lookupField_encodeSeq,
      if_neg (show ("ignorable_urls" : String) ≠ "is_exception" from by decide),
      Option.none_or]
  rw [lookupField_append, lookupField_encodeSeq,
      if_neg (show ("ignorable_emails" : String) ≠ "is_exception" from by decide),
      Option.none_or]
  rw [lookupField_append, lookupField_encodeOptInt,
      if_neg (show ("minimum_coverage" : String) ≠ "is_exception" from by decide),
      Option.none_or]
  rw [lookupField_append, lookupField_encodeOptStr,
      if_neg (show ("standard_notice" : String) ≠ "is_exception" from by decide),
      Option.none_or]
  rw [lookupField_encodeOptStr,
      if_neg (show ("language" : String) ≠ "is_exception" from by decide)]
  rw [Option.or_none]

theorem lookupField_encodeDoc_other_spdx_license_keys (r : ScancodeLicense) :
    lookupField (encodeDoc r) "other_spdx_license_keys" =
      (if r.other_spdx_license_keys.isEmpty then none
       else some (Value.vseq (r.other_spdx_license_keys.map Value.vstr))) := by
  rw [encodeDoc]
  simp only [List.append_assoc]
  rw [lookupField_append]
  rw [show lookupField [("key", Value.vstr r.key),
      ("short_name", Value.vstr r.short_name), ("name", Value.vstr r.name),
      ("category", Value.vstr (categoryLabel r.category)),
      ("owner", Value.vstr r.owner)] "other_spdx_license_keys" = none from by simp [lookupField]]
  rw [Option.none_or]
  rw [lookupField_append, lookupField_encodeOptStr,
      if_neg (show ("homepage_url" : String) ≠ "other_spdx_license_keys" from by decide),
      Option.none_or]
  rw [lookupField_append, lookupField_encodeOptStr,
      if_neg (show ("notes" : String) ≠ "other_spdx_license_keys" from by decide),
      Option.none_or]
  rw [lookupField_append, lookupField_encodeBool,
      if_neg (show ("is_deprecated" : String) ≠ "other_spdx_license_keys" from by decide),
      Option.none_or]
  rw [lookupField_append, lookupField_encodeOptStr,
      if_neg (show ("spdx_license_key" : String) ≠ "other_spdx_license_keys" from by decide),
      Option.none_or]
  rw [lookupField_append, lookupField_encodeSeq,
      if_neg (show ("text_urls" : String) ≠ "other_spdx_license_keys" from by decide),
      Option.none_or]
  rw [lookupField_append, lookupField_encodeOptStr,
      if_neg (show ("osi_url" : String) ≠ "other_spdx_license_keys" from by decide),
      Option.none_or]
  rw [lookupField_append, lookupField_encodeOptStr,
      if_neg (show ("osi_license_key" : String) ≠ "other_spdx_license_keys" from by decide),
      Option.none_or]
  rw [lookupField_append, lookupField_encodeOptStr,
      if_neg (show ("faq_url" : String) ≠ "other_spdx_license_keys" from by decide),
      Option.none_or]
  rw [lookupField_append, lookupField_encodeSeq,
      if_neg (show ("other_urls" : String) ≠ "other_spdx_license_keys" from by decide),
      Option.none_or]
  rw [lookupField_append, lookupField_encodeBool,
      if_neg (show ("is_exception" : String) ≠ "other_spdx_license_keys" from by decide),
      Option.none_or]
  rw [lookupField_append, lookupField_encodeSeq,
      if_pos (show ("other_spdx_license_keys" : String) = "other_spdx_license_keys" from rfl)]
  rw [lookupField_append, lookupField_encodeSeq,
      if_neg (show ("ignorable_copyrights" : String) ≠ "other_spdx_license_keys" from by decide),
      Option.none_or]
  rw [lookupField_append, lookupField_encodeSeq,
      if_neg (show ("ignorable_holders" : String) ≠ "other_spdx_license_keys" from by decide),
      Option.none_or]
  rw [lookupField_append, lookupField_encodeSeq,
      if_neg (show ("ignorable_authors" : String) ≠ "other_spdx_license_keys" from by decide),
      Option.none_or]
  rw [lookupField_append, lookupField_encodeSeq,
      if_neg (show ("ignorable_urls" : String) ≠ "other_spdx_license_keys" from by decide),
      Option.none_or]
  rw [lookupField_append, lookupField_encodeSeq,
      if_neg (show ("ignorable_emails" : String) ≠ "other_spdx_license_keys" from by decide),
      Option.none_or]
  rw [lookupField_append, lookupField_encodeOptInt,
      if_neg (show ("minimum_coverage" : String) ≠ "other_spdx_license_keys" from by decide),
      Option.none_or]
  rw [lookupField_append, lookupField_encodeOptStr,
      if_neg (show ("standard_notice" : String) ≠ "other_spdx_license_keys" from by decide),
      Option.none_or]
  rw [lookupField_encodeOptStr,
      if_neg (show ("language" : String) ≠ "other_spdx_license_keys" from by decide)]
  rw [Option.or_none]

theorem lookupField_encodeDoc_ignorable_copyrights (r : ScancodeLicense) :
    lookupField (encodeDoc r) "ignorable_copyrights" =
      (if r.ignorable_copyrights.isEmpty then none
       else some (Value.vseq (r.ignorable_copyrights.map Value.vstr))) := by
  rw [encodeDoc]
  simp only [List.append_assoc]
  rw [lookupField_append]
  rw [show lookupField [("key", Value.vstr r.key),
      ("short_name", Value.vstr r.short_name), ("name", Value.vstr r.name),
      ("category", Value.vstr (categoryLabel r.category)),
      ("owner", Value.vstr r.owner)] "ignorable_copyrights" = none from by simp [lookupField]]
  rw [Option.none_or]
  rw [lookupField_append, lookupField_encodeOptStr,
      if_neg (show ("homepage_url" : String) ≠ "ignorable_copyrights" from by decide),
      Option.none_or]
  rw [lookupField_append, lookupField_encodeOptStr,
      if_neg (show ("notes" : String) ≠ "ignorable_copyrights" from by decide),
      Option.none_or]
  rw [lookupField_append, lookupField_encodeBool,
      if_neg (show ("is_deprecated" : String) ≠ "ignorable_copyrights" from by decide),
      Option.none_or]
  rw [lookupField_append, lookupField_encodeOptStr,
      if_neg (show ("spdx_license_key" : String) ≠ "ignorable_copyrights" from by decide),
      Option.none_or]
  rw [lookupField_append, lookupField_encodeSeq,
      if_neg (show ("text_urls" : String) ≠ "ignorable_copyrights" from by decide),
      Option.none_or]
  rw [lookupField_append, lookupField_encodeOptStr,
      if_neg (show ("osi_url" : String) ≠ "ignorable_copyrights" from by decide),
      Option.none_or]
  rw [lookupField_append, lookupField_encodeOptStr,
      if_neg (show ("osi_license_key" : String) ≠ "ignorable_copyrights" from by decide),
      Option.none_or]
  rw [lookupField_append, lookupField_encodeOptStr,
      if_neg (show ("faq_url" : String) ≠ "ignorable_copyrights" from by decide),
      Option.none_or]
  rw [lookupField_append, lookupField_encodeSeq,
      if_neg (show ("other_urls" : String) ≠ "ignorable_copyrights" from by decide),
      Option.none_or]
  rw [lookupField_append, lookupField_encodeBool,
      if_neg (show ("is_exception" : String) ≠ "ignorable_copyrights" from by decide),
      Option.none_or]
  rw [lookupField_append, lookupField_encodeSeq,
      if_neg (show ("other_spdx_license_keys" : String) ≠ "ignorable_copyrights" from by decide),
      Option.none_or]
  rw [lookupField_append, lookupField_encodeSeq,
      if_pos (show ("ignorable_copyrights" : String) = "ignorable_copyrights" from rfl)]
  rw [lookupField_append, lookupField_encodeSeq,
      if_neg (show ("ignorable_holders" : String) ≠ "ignorable_copyrights" from by decide),
      Option.none_or]
  rw [lookupField_append, lookupField_encodeSeq,
      if_neg (show ("ignorable_authors" : String) ≠ "ignorable_copyrights" from by decide),
      Option.none_or]
  rw [lookupField_append, lookupField_encodeSeq,
      if_neg (show ("ignorable_urls" : String) ≠ "ignorable_copyrights" from by decide),
      Option.none_or]
  rw [lookupField_append, lookupField_encodeSeq,
      if_neg (show ("ignorable_emails" : String) ≠ "ignorable_copyrights" from by decide),
      Option.none_or]
  rw [lookupField_append, lookupField_encodeOptInt,
      if_neg (show ("minimum_coverage" : String) ≠ "ignorable_copyrights" from by decide),
      Option.none_or]
  rw [lookupField_append, lookupField_encodeOptStr,
      if_neg (show ("standard_notice" : String) ≠ "ignorable_copyrights" from by decide),
      Option.none_or]
  rw [lookupField_encodeOptStr,
      if_neg (show ("language" : String) ≠ "ignorable_copyrights" from by decide)]
  rw [Option.or_none]

theorem lookupField_encodeDoc_ignorable_holders (r : ScancodeLicense) :
    lookupField (encodeDoc r) "ignorable_holders" =
      (if r.ignorable_holders.isEmpty then none
       else some (Value.vseq (r.ignorable_holders.map Value.vstr))) := by
  rw [encodeDoc]
  simp only [List.append_assoc]
  rw [lookupField_append]
  rw [show lookupField [("key", Value.vstr r.key),
      ("short_name", Value.vstr r.short_name), ("name", Value.vstr r.name),
      ("category", Value.vstr (categoryLabel r.category)),
      ("owner", Value.vstr r.owner)] "ignorable_holders" = none from by simp [lookupField]]
  rw [Option.none_or]
  rw [lookupField_append, lookupField_encodeOptStr,
      if_neg (show ("homepage_url" : String) ≠ "ignorable_holders" from by decide),
      Option.none_or]
  rw [lookupField_append, lookupField_encodeOptStr,
      if_neg (show ("notes" : String) ≠ "ignorable_holders" from by decide),
      Option.none_or]
  rw [lookupField_append, lookupField_encodeBool,
      if_neg (show ("is_deprecated" : String) ≠ "ignorable_holders" from by decide),
      Option.none_or]
  rw [lookupField_append, lookupField_encodeOptStr,
      if_neg (show ("spdx_license_key" : String) ≠ "ignorable_holders" from by decide),
      Option.none_or]
  rw [lookupField_append, lookupField_encodeSeq,
      if_neg (show ("text_urls" : String) ≠ "ignorable_holders" from by decide),
      Option.none_or]
  rw [lookupField_append, lookupField_encodeOptStr,
      if_neg (show ("osi_url" : String) ≠ "ignorable_holders" from by decide),
      Option.none_or]
  rw [lookupField_append, lookupField_encodeOptStr,
      if_neg (show ("osi_license_key" : String) ≠ "ignorable_holders" from by decide),
      Option.none_or]
  rw [lookupField_append, lookupField_encodeOptStr,
      if_neg (show ("faq_url" : String) ≠ "ignorable_holders" from by decide),
      Option.none_or]
  rw [lookupField_append, lookupField_encodeSeq,
      if_neg (show ("other_urls" : String) ≠ "ignorable_holders" from by decide),
      Option.none_or]
  rw [lookupField_append, lookupField_encodeBool,
      if_neg (show ("is_exception" : String) ≠ "ignorable_holders" from by decide),
      Option.none_or]
  rw [lookupField_append, lookupField_encodeSeq,
      if_neg (show ("other_spdx_license_keys" : String) ≠ "ignorable_holders" from by decide),
      Option.none_or]
  rw [lookupField_append, lookupField_encodeSeq,
      if_neg (show ("ignorable_copyrights" : String) ≠ "ignorable_holders" from by decide),
      Option.none_or]
  rw [lookupField_append, lookupField_encodeSeq,
      if_pos (show ("ignorable_holders" : String) = "ignorable_holders" from rfl)]
  rw [lookupField_append, lookupField_encodeSeq,
      if_neg (show ("ignorable_authors" : String) ≠ "ignorable_holders" from by decide),
      Option.none_or]
  rw [lookupField_append, lookupField_encodeSeq,
      if_neg (show ("ignorable_urls" : String) ≠ "ignorable_holders" from by decide),
      Option.none_or]
  rw [lookupField_append, lookupField_encodeSeq,
      if_neg (show ("ignorable_emails" : String) ≠ "ignorable_holders" from by decide),
      Option.none_or]
  rw [lookupField_append, lookupField_encodeOptInt,
      if_neg (show ("minimum_coverage" : String) ≠ "ignorable_holders" from by decide),
      Option.none_or]
  rw [lookupField_append, lookupField_encodeOptStr,
      if_neg (show ("standard_notice" : String) ≠ "ignorable_holders" from by decide),
      Option.none_or]
  rw [lookupField_encodeOptStr,
      if_neg (show ("language" : String) ≠ "ignorable_holders" from by decide)]
  rw [Option.or_none]

theorem lookupField_encodeDoc_ignorable_authors (r : ScancodeLicense) :
    lookupField (encodeDoc r) "ignorable_authors" =
      (if r.ignorable_authors.isEmpty then none
       else some (Value.vseq (r.ignorable_authors.map Value.vstr))) := by
  rw [encodeDoc]
  simp only [List.append_assoc]
  rw [lookupField_append]
  rw [show lookupField [("key", Value.vstr r.key),
      ("short_name", Value.vstr r.short_name), ("name", Value.vstr r.name),
      ("category", Value.vstr (categoryLabel r.category)),
      ("owner", Value.vstr r.owner)] "ignorable_authors" = none from by simp [lookupField]]
  rw [Option.none_or]
  rw [lookupField_append, lookupField_encodeOptStr,
      if_neg (show ("homepage_url" : String) ≠ "ignorable_authors" from by decide),
      Option.none_or]
  rw [lookupField_append, lookupField_encodeOptStr,
      if_neg (show ("notes" : String) ≠ "ignorable_authors" from by decide),
      Option.none_or]
  rw [lookupField_append, lookupField_encodeBool,
      if_neg (show ("is_deprecated" : String) ≠ "ignorable_authors" from by decide),
      Option.none_or]
  rw [lookupField_append, lookupField_encodeOptStr,
      if_neg (show ("spdx_license_key" : String) ≠ "ignorable_authors" from by decide),
      Option.none_or]
  rw [lookupField_append, lookupField_encodeSeq,
      if_neg (show ("text_urls" : String) ≠ "ignorable_authors" from by decide),
      Option.none_or]
  rw [lookupField_append, lookupField_encodeOptStr,
      if_neg (show ("osi_url" : String) ≠ "ignorable_authors" from by decide),
      Option.none_or]
  rw [lookupField_append, lookupField_encodeOptStr,
      if_neg (show ("osi_license_key" : String) ≠ "ignorable_authors" from by decide),
      Option.none_or]
  rw [lookupField_append, lookupField_encodeOptStr,
      if_neg (show ("faq_url" : String) ≠ "ignorable_authors" from by decide),
      Option.none_or]
  rw [lookupField_append, lookupField_encodeSeq,
      if_neg (show ("other_urls" : String) ≠ "ignorable_authors" from by decide),
      Option.none_or]
  rw [lookupField_append, lookupField_encodeBool,
      if_neg (show ("is_exception" : String) ≠ "ignorable_authors" from by decide),
      Option.none_or]
  rw [lookupField_append, lookupField_encodeSeq,
      if_neg (show ("other_spdx_license_keys" : String) ≠ "ignorable_authors" from by decide),
      Option.none_or]
  rw [lookupField_append, lookupField_encodeSeq,
      if_neg (show ("ignorable_copyrights" : String) ≠ "ignorable_authors" from by decide),
      Option.none_or]
  rw [lookupField_append, lookupField_encodeSeq,
      if_neg (show ("ignorable_holders" : String) ≠ "ignorable_authors" from by decide),
      Option.none_or]
  rw [lookupField_append, lookupField_encodeSeq,
      if_pos (show ("ignorable_authors" : String) = "ignorable_authors" from rfl)]
  rw [lookupField_append, lookupField_encodeSeq,
      if_neg (show ("ignorable_urls" : String) ≠ "ignorable_authors" from by decide),
      Option.none_or]
  rw [lookupField_append, lookupField_encodeSeq,
      if_neg (show ("ignorable_emails" : String) ≠ "ignorable_authors" from by decide),
      Option.none_or]
  rw [lookupField_append, lookupField_encodeOptInt,
      if_neg (show ("minimum_coverage" : String) ≠ "ignorable_authors" from by decide),
      Option.none_or]
  rw [lookupField_append, lookupField_encodeOptStr,
      if_neg (show ("standard_notice" : String) ≠ "ignorable_authors" from by decide),
      Option.none_or]
  rw [lookupField_encodeOptStr,
      if_neg (show ("language" : String) ≠ "ignorable_authors" from by decide)]
  rw [Option.or_none]

theorem lookupField_encodeDoc_ignorable_urls (r : ScancodeLicense) :
    lookupField (encodeDoc r) "ignorable_urls" =
      (if r.ignorable_urls.isEmpty then none
       else some (Value.vseq (r.ignorable_urls.map Value.vstr))) := by
  rw [encodeDoc]
  simp only [List.append_assoc]
  rw [lookupField_append]
  rw [show lookupField [("key", Value.vstr r.key),
      ("short_name", Value.vstr r.short_name), ("name", Value.vstr r.name),
      ("category", Value.vstr (categoryLabel r.category)),
      ("owner", Value.vstr r.owner)] "ignorable_urls" = none from by simp [lookupField]]
  rw [Option.none_or]
  rw [lookupField_append, lookupField_encodeOptStr,
      if_neg (show ("homepage_url" : String) ≠ "ignorable_urls" from by decide),
      Option.none_or]
  rw [lookupField_append, lookupField_encodeOptStr,
      if_neg (show ("notes" : String) ≠ "ignorable_urls" from by decide),
      Option.none_or]
  rw [lookupField_append, lookupField_encodeBool,
      if_neg (show ("is_deprecated" : String) ≠ "ignorable_urls" from by decide),
      Option.none_or]
  rw [lookupField_append, lookupField_encodeOptStr,
      if_neg (show ("spdx_license_key" : String) ≠ "ignorable_urls" from by decide),
      Option.none_or]
  rw [lookupField_append, lookupField_encodeSeq,
      if_neg (show ("text_urls" : String) ≠ "ignorable_urls" from by decide),
      Option.none_or]
  rw [lookupField_append, lookupField_encodeOptStr,
      if_neg (show ("osi_url" : String) ≠ "ignorable_urls" from by decide),
      Option.none_or]
  rw [lookupField_append, lookupField_encodeOptStr,
      if_neg (show ("osi_license_key" : String) ≠ "ignorable_urls" from by decide),
      Option.none_or]
  rw [lookupField_append, lookupField_encodeOptStr,
      if_neg (show ("faq_url" : String) ≠ "ignorable_urls" from by decide),
      Option.none_or]
  rw [lookupField_append, lookupField_encodeSeq,
      if_neg (show ("other_urls" : String) ≠ "ignorable_urls" from by decide),
      Option.none_or]
  rw [lookupField_append, lookupField_encodeBool,
      if_neg (show ("is_exception" : String) ≠ "ignorable_urls" from by decide),
      Option.none_or]
  rw [lookupField_append, lookupField_encodeSeq,
      if_neg (show ("other_spdx_license_keys" : String) ≠ "ignorable_urls" from by decide),
      Option.none_or]
  rw [lookupField_append, lookupField_encodeSeq,
      if_neg (show ("ignorable_copyrights" : String) ≠ "ignorable_urls" from by decide),
      Option.none_or]
  rw [lookupField_append, lookupField_encodeSeq,
      if_neg (show ("ignorable_holders" : String) ≠ "ignorable_urls" from by decide),
      Option.none_or]
  rw [lookupField_append, lookupField_encodeSeq,
      if_neg (show ("ignorable_authors" : String) ≠ "ignorable_urls" from by decide),
      Option.none_or]
  rw [lookupField_append, lookupField_encodeSeq,
      if_pos (show ("ignorable_urls" : String) = "ignorable_urls" from rfl)]
  rw [lookupField_append, lookupField_encodeSeq,
      if_neg (show ("ignorable_emails" : String) ≠ "ignorable_urls" from by decide),
      Option.none_or]
  rw [lookupField_append, lookupField_encodeOptInt,
      if_neg (show ("minimum_coverage" : String) ≠ "ignorable_urls" from by decide),
      Option.none_or]
  rw [lookupField_append, lookupField_encodeOptStr,
      if_neg (show ("standard_notice" : String) ≠ "ignorable_urls" from by decide),
      Option.none_or]
  rw [lookupField_encodeOptStr,
      if_neg (show ("language" : String) ≠ "ignorable_urls" from by decide)]
  rw [Option.or_none]

theorem lookupField_encodeDoc_ignorable_emails (r : ScancodeLicense) :
    lookupField (encodeDoc r) "ignorable_emails" =
      (if r.ignorable_emails.isEmpty then none
       else some (Value.vseq (r.ignorable_emails.map Value.vstr))) := by
  rw [encodeDoc]
  simp only [List.append_assoc]
  rw [lookupField_append]
  rw [show lookupField [("key", Value.vstr r.key),
      ("short_name", Value.vstr r.short_name), ("name", Value.vstr r.name),
      ("category", Value.vstr (categoryLabel r.category)),
      ("owner", Value.vstr r.owner)] "ignorable_emails" = none from by simp [lookupField]]
  rw [Option.none_or]
  rw [lookupField_append, lookupField_encodeOptStr,
      if_neg (show ("homepage_url" : String) ≠ "ignorable_emails" from by decide),
      Option.none_or]
  rw [lookupField_append, lookupField_encodeOptStr,
      if_neg (show ("notes" : String) ≠ "ignorable_emails" from by decide),
      Option.none_or]
  rw [lookupField_append, lookupField_encodeBool,
      if_neg (show ("is_deprecated" : String) ≠ "ignorable_emails" from by decide),
      Option.none_or]
  rw [lookupField_append, lookupField_encodeOptStr,
      if_neg (show ("spdx_license_key" : String) ≠ "ignorable_emails" from by decide),
      Option.none_or]
  rw [lookupField_append, lookupField_encodeSeq,
      if_neg (show ("text_urls" : String) ≠ "ignorable_emails" from by decide),
      Option.none_or]
  rw [lookupField_append, lookupField_encodeOptStr,
      if_neg (show ("osi_url" : String) ≠ "ignorable_emails" from by decide),
      Option.none_or]
  rw [lookupField_append, lookupField_encodeOptStr,
      if_neg (show ("osi_license_key" : String) ≠ "ignorable_emails" from by decide),
      Option.none_or]
  rw [lookupField_append, lookupField_encodeOptStr,
      if_neg (show ("faq_url" : String) ≠ "ignorable_emails" from by decide),
      Option.none_or]
  rw [lookupField_append, lookupField_encodeSeq,
      if_neg (show ("other_urls" : String) ≠ "ignorable_emails" from by decide),
      Option.none_or]
  rw [lookupField_append, lookupField_encodeBool,
      if_neg (show ("is_exception" : String) ≠ "ignorable_emails" from by decide),
      Option.none_or]
  rw [lookupField_append, lookupField_encodeSeq,
      if_neg (show ("other_spdx_license_keys" : String) ≠ "ignorable_emails" from by decide),
      Option.none_or]
  rw [lookupField_append, lookupField_encodeSeq,
      if_neg (show ("ignorable_copyrights" : String) ≠ "ignorable_emails" from by decide),
      Option.none_or]
  rw [lookupField_append, lookupField_encodeSeq,
      if_neg (show ("ignorable_holders" : String) ≠ "ignorable_emails" from by decide),
      Option.none_or]
  rw [lookupField_append, lookupField_encodeSeq,
      if_neg (show ("ignorable_authors" : String) ≠ "ignorable_emails" from by decide),
      Option.none_or]
  rw [lookupField_append, lookupField_encodeSeq,
      if_neg (show ("ignorable_urls" : String) ≠ "ignorable_emails" from by decide),
      Option.none_or]
  rw [lookupField_append, lookupField_encodeSeq,
      if_pos (show ("ignorable_emails" : String) = "ignorable_emails" from rfl)]
  rw [lookupField_append, lookupField_encodeOptInt,
      if_neg (show ("minimum_coverage" : String) ≠ "ignorable_emails" from by decide),
      Option.none_or]
  rw [lookupField_append, lookupField_encodeOptStr,
      if_neg (show ("standard_notice" : String) ≠ "ignorable_emails" from by decide),
      Option.none_or]
  rw [lookupField_encodeOptStr,
      if_neg (show ("language" : String) ≠ "ignorable_emails" from by decide)]
  rw [Option.or_none]

theorem lookupField_encodeDoc_minimum_coverage (r : ScancodeLicense) :
    lookupField (encodeDoc r) "minimum_coverage" =
      r.minimum_coverage.map Value.vint := by
  rw [encodeDoc]
  simp only [List.append_assoc]
  rw [lookupField_append]
  rw [show lookupField [("key", Value.vstr r.key),
      ("short_name", Value.vstr r.short_name), ("name", Value.vstr r.name),
      ("category", Value.vstr (categoryLabel r.category)),
      ("owner", Value.vstr r.owner)] "minimum_coverage" = none from by simp [lookupField]]
  rw [Option.none_or]
  rw [lookupField_append, lookupField_encodeOptStr,
      if_neg (show ("homepage_url" : String) ≠ "minimum_coverage" from by decide),
      Option.none_or]
  rw [lookupField_append, lookupField_encodeOptStr,
      if_neg (show ("notes" : String) ≠ "minimum_coverage" from by decide),
      Option.none_or]
  rw [lookupField_append, lookupField_encodeBool,
      if_neg (show ("is_deprecated" : String) ≠ "minimum_coverage" from by decide),
      Option.none_or]
  rw [lookupField_append, lookupField_encodeOptStr,
      if_neg (show ("spdx_license_key" : String) ≠ "minimum_coverage" from by decide),
      Option.none_or]
  rw [lookupField_append, lookupField_encodeSeq,
      if_neg (show ("text_urls" : String) ≠ "minimum_coverage" from by decide),
      Option.none_or]
  rw [lookupField_append, lookupField_encodeOptStr,
      if_neg (show ("osi_url" : String) ≠ "minimum_coverage" from by decide),
      Option.none_or]
  rw [lookupField_append, lookupField_encodeOptStr,
      if_neg (show ("osi_license_key" : String) ≠ "minimum_coverage" from by decide),
      Option.none_or]
  rw [lookupField_append, lookupField_encodeOptStr,
      if_neg (show ("faq_url" : String) ≠ "minimum_coverage" from by decide),
      Option.none_or]
  rw [lookupField_append, lookupField_encodeSeq,
      if_neg (show ("other_urls" : String) ≠ "minimum_coverage" from by decide),
      Option.none_or]
  rw [lookupField_append, lookupField_encodeBool,
      if_neg (show ("is_exception" : String) ≠ "minimum_coverage" from by decide),
      Option.none_or]
  rw [lookupField_append, lookupField_encodeSeq,
      if_neg (show ("other_spdx_license_keys" : String) ≠ "minimum_coverage" from by decide),
      Option.none_or]
  rw [lookupField_append, lookupField_encodeSeq,
      if_neg (show ("ignorable_copyrights" : String) ≠ "minimum_coverage" from by decide),
      Option.none_or]
  rw [lookupField_append, lookupField_encodeSeq,
      if_neg (show ("ignorable_holders" : String) ≠ "minimum_coverage" from by decide),
      Option.none_or]
  rw [lookupField_append, lookupField_encodeSeq,
      if_neg (show ("ignorable_authors" : String) ≠ "minimum_coverage" from by decide),
      Option.none_or]
  rw [lookupField_append, lookupField_encodeSeq,
      if_neg (show ("ignorable_urls" : String) ≠ "minimum_coverage" from by decide),
      Option.none_or]
  rw [lookupField_append, lookupField_encodeSeq,
      if_neg (show ("ignorable_emails" : String) ≠ "minimum_coverage" from by decide),
      Option.none_or]
  rw [lookupField_append, lookupField_encodeOptInt,
      if_pos (show ("minimum_coverage" : String) = "minimum_coverage" from rfl)]
  rw [lookupField_append, lookupField_encodeOptStr,
      if_neg (show ("standard_notice" : String) ≠ "minimum_coverage" from by decide),
      Option.none_or]
  rw [lookupField_encodeOptStr,
      if_neg (show ("language" : String) ≠ "minimum_coverage" from by decide)]
  rw [Option.or_none]

theorem lookupField_encodeDoc_standard_notice (r : ScancodeLicense) :
    lookupField (encodeDoc r) "standard_notice" =
      r.standard_notice.map Value.vstr := by
  rw [encodeDoc]
  simp only [List.append_assoc]
  rw [lookupField_append]
  rw [show lookupField [("key", Value.vstr r.key),
      ("short_name", Value.vstr r.short_name), ("name", Value.vstr r.name),
      ("category", Value.vstr (categoryLabel r.category)),
      ("owner", Value.vstr r.owner)] "standard_notice" = none from by simp [lookupField]]
  rw [Option.none_or]
  rw [lookupField_append, lookupField_encodeOptStr,
      if_neg (show ("homepage_url" : String) ≠ "standard_notice" from by decide),
      Option.none_or]
  rw [lookupField_append, lookupField_encodeOptStr,
      if_neg (show ("notes" : String) ≠ "standard_notice" from by decide),
      Option.none_or]
  rw [lookupField_append, lookupField_encodeBool,
      if_neg (show ("is_deprecated" : String) ≠ "standard_notice" from by decide),
      Option.none_or]
  rw [lookupField_append, lookupField_encodeOptStr,
      if_neg (show ("spdx_license_key" : String) ≠ "standard_notice" from by decide),
      Option.none_or]
  rw [lookupField_append, lookupField_encodeSeq,
      if_neg (show ("text_urls" : String) ≠ "standard_notice" from by decide),
      Option.none_or]
  rw [lookupField_append, lookupField_encodeOptStr,
      if_neg (show ("osi_url" : String) ≠ "standard_notice" from by decide),
      Option.none_or]
  rw [lookupField_append, lookupField_encodeOptStr,
      if_neg (show ("osi_license_key" : String) ≠ "standard_notice" from by decide),
      Option.none_or]
  rw [lookupField_append, lookupField_encodeOptStr,
      if_neg (show ("faq_url" : String) ≠ "standard_notice" from by decide),
      Option.none_or]
  rw [lookupField_append, lookupField_encodeSeq,
      if_neg (show ("other_urls" : String) ≠ "standard_notice" from by decide),
      Option.none_or]
  rw [lookupField_append, lookupField_encodeBool,
      if_neg (show ("is_exception" : String) ≠ "standard_notice" from by decide),
      Option.none_or]
  rw [lookupField_append, lookupField_encodeSeq,
      if_neg (show ("other_spdx_license_keys" : String) ≠ "standard_notice" from by decide),
      Option.none_or]
  rw [lookupField_append, lookupField_encodeSeq,
      if_neg (show ("ignorable_copyrights" : String) ≠ "standard_notice" from by decide),
      Option.none_or]
  rw [lookupField_append, lookupField_encodeSeq,
      if_neg (show ("ignorable_holders" : String) ≠ "standard_notice" from by decide),
      Option.none_or]
  rw [lookupField_append, lookupField_encodeSeq,
      if_neg (show ("ignorable_authors" : String) ≠ "standard_notice" from by decide),
      Option.none_or]
  rw [lookupField_append, lookupField_encodeSeq,
      if_neg (show ("ignorable_urls" : String) ≠ "standard_notice" from by decide),
      Option.none_or]
  rw [lookupField_append, lookupField_encodeSeq,
      if_neg (show ("ignorable_emails" : String) ≠ "standard_notice" from by decide),
      Option.none_or]
  rw [lookupField_append, lookupField_encodeOptInt,
      if_neg (show ("minimum_coverage" : String) ≠ "standard_notice" from by decide),
      Option.none_or]
  rw [lookupField_append, lookupField_encodeOptStr,
      if_pos (show ("standard_notice" : String) = "standard_notice" from rfl)]
  rw [lookupField_encodeOptStr,
      if_neg (show ("language" : String) ≠ "standard_notice" from by decide)]
  rw [Option.or_none]

theorem lookupField_encodeDoc_language (r : ScancodeLicense) :
    lookupField (encodeDoc r) "language" =
      r.language.map Value.vstr := by
  rw [encodeDoc]
  simp only [List.append_assoc]
  rw [lookupField_append]
  rw [show lookupField [("key", Value.vstr r.key),
      ("short_name", Value.vstr r.short_name), ("name", Value.vstr r.name),
      ("category", Value.vstr (categoryLabel r.category)),
      ("owner", Value.vstr r.owner)] "language" = none from by simp [lookupField]]
  rw [Option.none_or]
  rw [lookupField_append, lookupField_encodeOptStr,
      if_neg (show ("homepage_url" : String) ≠ "language" from by decide),
      Option.none_or]
  rw [lookupField_append, lookupField_encodeOptStr,
      if_neg (show ("notes" : String) ≠ "language" from by decide),
      Option.none_or]
  rw [lookupField_append, lookupField_encodeBool,
      if_neg (show ("is_deprecated" : String) ≠ "language" from by decide),
      Option.none_or]
  rw [lookupField_append, lookupField_encodeOptStr,
      if_neg (show ("spdx_license_key" : String) ≠ "language" from by decide),
      Option.none_or]
  rw [lookupField_append, lookupField_encodeSeq,
      if_neg (show ("text_urls" : String) ≠ "language" from by decide),
      Option.none_or]
  rw [lookupField_append, lookupField_encodeOptStr,
      if_neg (show ("osi_url" : String) ≠ "language" from by decide),
      Option.none_or]
  rw [lookupField_append, lookupField_encodeOptStr,
      if_neg (show ("osi_license_key" : String) ≠ "language" from by decide),
      Option.none_or]
  rw [lookupField_append, lookupField_encodeOptStr,
      if_neg (show ("faq_url" : String) ≠ "language" from by decide),
      Option.none_or]
  rw [lookupField_append, lookupField_encodeSeq,
      if_neg (show ("other_urls" : String) ≠ "language" from by decide),
      Option.none_or]
  rw [lookupField_append, lookupField_encodeBool,
      if_neg (show ("is_exception" : String) ≠ "language" from by decide),
      Option.none_or]
  rw [lookupField_append, lookupField_encodeSeq,
      if_neg (show ("other_spdx_license_keys" : String) ≠ "language" from by decide),
      Option.none_or]
  rw [lookupField_append, lookupField_encodeSeq,
      if_neg (show ("ignorable_copyrights" : String) ≠ "language" from by decide),
      Option.none_or]
  rw [lookupField_append, lookupField_encodeSeq,
      if_neg (show ("ignorable_holders" : String) ≠ "language" from by decide),
      Option.none_or]
  rw [lookupField_append, lookupField_encodeSeq,
      if_neg (show ("ignorable_authors" : String) ≠ "language" from by decide),
      Option.none_or]
  rw [lookupField_append, lookupField_encodeSeq,
      if_neg (show ("ignorable_urls" : String) ≠ "language" from by decide),
      Option.none_or]
  rw [lookupField_append, lookupField_encodeSeq,
      if_neg (show ("ignorable_emails" : String) ≠ "language" from by decide),
      Option.none_or]
  rw [lookupField_append, lookupField_encodeOptInt,
      if_neg (show ("minimum_coverage" : String) ≠ "language" from by decide),
      Option.none_or]
  rw [lookupField_append, lookupField_encodeOptStr,
      if_neg (show ("standard_notice" : String) ≠ "language" from by decide),
      Option.none_or]
  rw [lookupField_encodeOptStr,
      if_pos (show ("language" : String) = "language" from rfl)]


theorem except_pure_eq_ok {ε α : Type} (a : α) :
    (pure a : Except ε α) = .ok a := rfl

theorem decodeDoc_ok_iff (d : Doc) (r : ScancodeLicense) :
    decodeDoc d = .ok r ↔
      d.find? (fun p => !(knownFields.contains p.1)) = none ∧
      nodupKeys (d.map Prod.fst) = true ∧
      decodeField d "key" parseString none = .ok r.key ∧
      decodeField d "short_name" parseString none = .ok r.short_name ∧
      decodeField d "name" parseString none = .ok r.name ∧
      decodeField d "category" parseCategoryV none = .ok r.category ∧
      decodeField d "owner" parseString none = .ok r.owner ∧
      decodeField d "homepage_url" parseOptString (some none) = .ok r.homepage_url ∧
      decodeField d "notes" parseOptString (some none) = .ok r.notes ∧
      decodeField d "is_deprecated" parseBoolYes (some false) = .ok r.is_deprecated ∧
      decodeField d "spdx_license_key" parseOptString (some none) = .ok r.spdx_license_key ∧
      decodeField d "text_urls" parseSeqString (some []) = .ok r.text_urls ∧
      decodeField d "osi_url" parseOptString (some none) = .ok r.osi_url ∧
      decodeField d "osi_license_key" parseOptString (some none) = .ok r.osi_license_key ∧
      decodeField d "faq_url" parseOptString (some none) = .ok r.faq_url ∧
      decodeField d "other_urls" parseSeqString (some []) = .ok r.other_urls ∧
      decodeField d "is_exception" parseBoolYes (some false) = .ok r.is_exception ∧
      decodeField d "other_spdx_license_keys" parseSeqString (some []) = .ok r.other_spdx_license_keys ∧
      decodeField d "ignorable_copyrights" parseSeqString (some []) = .ok r.ignorable_copyrights ∧
      decodeField d "ignorable_holders" parseSeqString (some []) = .ok r.ignorable_holders ∧
      decodeField d "ignorable_authors" parseSeqString (some []) = .ok r.ignorable_authors ∧
      decodeField d "ignorable_urls" parseSeqString (some []) = .ok r.ignorable_urls ∧
      decodeField d "ignorable_emails" parseSeqString (some []) = .ok r.ignorable_emails ∧
      decodeField d "minimum_coverage" parseOptI32 (some none) = .ok r.minimum_coverage ∧
      decodeField d "standard_notice" parseOptString (some none) = .ok r.standard_notice ∧
      decodeField d "language" parseOptString (some none) = .ok r.language ∧
      r.text = "" := by
  constructor
  · intro h
    unfold decodeDoc at h
    cases hfind : d.find? (fun p => !(knownFields.contains p.1)) with
    | some p => rw [hfind] at h; simp at h
    | none =>
      rw [hfind] at h
      by_cases hnd : nodupKeys (d.map Prod.fst) = true
      · rw [if_pos hnd] at h
        simp only [except_bind_eq_ok, except_pure_eq_ok, Except.ok.injEq] at h
        obtain ⟨a1, h1, a2, h2, a3, h3, a4, h4, a5, h5, a6, h6, a7, h7, a8, h8,
                a9, h9, a10, h10, a11, h11, a12, h12, a13, h13, a14, h14,
                a15, h15, a16, h16, a17, h17, a18, h18, a19, h19, a20, h20,
                a21, h21, a22, h22, a23, h23, a24, h24, hr⟩ := h
        subst hr
        exact ⟨rfl, hnd, h1, h2, h3, h4, h5, h6, h7, h8, h9, h10, h11, h12,
               h13, h14, h15, h16, h17, h18, h19, h20, h21, h22, h23, h24, rfl⟩
      · rw [if_neg hnd] at h; simp at h
  · rintro ⟨hfind, hnd, h1, h2, h3, h4, h5, h6, h7, h8, h9, h10, h11, h12,
            h13, h14, h15, h16, h17, h18, h19, h20, h21, h22, h23, h24, htext⟩
    unfold decodeDoc
    simp only [hfind]
    rw [if_pos hnd]
    simp only [h1, h2, h3, h4, h5, h6, h7, h8, h9, h10, h11, h12, h13, h14,
               h15, h16, h17, h18, h19, h20, h21, h22, h23, h24, except_ok_bind]
    rw [← htext]
    rfl

theorem keys_encodeOptStr (k : String) (v : Option String) :
    List.Sublist ((encodeOptStr k v).map Prod.fst) [k] := by
  cases v <;> simp [encodeOptStr]

theorem keys_encodeSeq (k : String) (xs : List String) :
    List.Sublist ((encodeSeq k xs).map Prod.fst) [k] := by
  by_cases h : xs.isEmpty <;> simp [encodeSeq, h]

theorem keys_encodeBool (k : String) (b : Bool) :
    List.Sublist ((encodeBool k b).map Prod.fst) [k] := by
  cases b <;> simp [encodeBool, is_false]

theorem keys_encodeOptInt (k : String) (v : Option Int) :
    List.Sublist ((encodeOptInt k v).map Prod.fst) [k] := by
  cases v <;> simp [encodeOptInt]

theorem keys_encodeDoc (r : ScancodeLicense) :
    List.Sublist ((encodeDoc r).map Prod.fst) knownFields := by
  rw [encodeDoc]
  simp only [List.append_assoc, List.map_append, List.map_cons, List.map_nil]
  show List.Sublist _ (["key", "short_name", "name", "category", "owner"] ++
      (["homepage_url"] ++ (["notes"] ++ (["is_deprecated"] ++
      (["spdx_license_key"] ++ (["text_urls"] ++ (["osi_url"] ++
      (["osi_license_key"] ++ (["faq_url"] ++ (["other_urls"] ++
      (["is_exception"] ++ (["other_spdx_license_keys"] ++
      (["ignorable_copyrights"] ++ (["ignorable_holders"] ++
      (["ignorable_authors"] ++ (["ignorable_urls"] ++
      (["ignorable_emails"] ++ (["minimum_coverage"] ++
      (["standard_notice"] ++ ["language"])))))))))))))))))))
  refine List.Sublist.append (List.Sublist.refl _) ?_
  refine List.Sublist.append (keys_encodeOptStr _ _) ?_
  refine List.Sublist.append (keys_encodeOptStr _ _) ?_
  refine List.Sublist.append (keys_encodeBool _ _) ?_
  refine List.Sublist.append (keys_encodeOptStr _ _) ?_
  refine List.Sublist.append (keys_encodeSeq _ _) ?_
  refine List.Sublist.append (keys_encodeOptStr _ _) ?_
  refine List.Sublist.append (keys_encodeOptStr _ _) ?_
  refine List.Sublist.append (keys_encodeOptStr _ _) ?_
  refine List.Sublist.append (keys_encodeSeq _ _) ?_
  refine List.Sublist.append (keys_encodeBool _ _) ?_
  refine List.Sublist.append (keys_encodeSeq _ _) ?_
  refine List.Sublist.append (keys_encodeSeq _ _) ?_
  refine List.Sublist.append (keys_encodeSeq _ _) ?_
  refine List.Sublist.append (keys_encodeSeq _ _) ?_
  refine List.Sublist.append (keys_encodeSeq _ _) ?_
  refine List.Sublist.append (keys_encodeSeq _ _) ?_
  refine List.Sublist.append (keys_encodeOptInt _ _) ?_
  exact List.Sublist.append (keys_encodeOptStr _ _) (keys_encodeOptStr _ _)

theorem encodeDoc_find_none (r : ScancodeLicense) :
    (encodeDoc r).find? (fun p => !(knownFields.contains p.1)) = none := by
  rw [List.find?_eq_none]
  intro p hp
  have hk : p.1 ∈ knownFields :=
    (keys_encodeDoc r).mem (List.mem_map_of_mem Prod.fst hp)
  simp [hk]

theorem contains_sublist {l₁ l₂ : List String} (h : List.Sublist l₁ l₂) (a : String)
    (ha : l₁.contains a = true) : l₂.contains a = true := by
  have h1 : a ∈ l₁ := by simpa using ha
  have h2 : a ∈ l₂ := h.mem h1
  simpa using h2

theorem nodupKeys_sublist {l₁ l₂ : List String} (h : List.Sublist l₁ l₂)
    (hn : nodupKeys l₂ = true) : nodupKeys l₁ = true := by
  induction h with
  | slnil => rfl
  | cons a h ih =>
    simp only [nodupKeys, Bool.and_eq_true] at hn
    exact ih hn.2
  | cons₂ a h ih =>
    rename_i s₁ s₂
    simp only [nodupKeys, Bool.and_eq_true, Bool.not_eq_true'] at hn ⊢
    refine ⟨?_, ih hn.2⟩
    have h2 : a ∉ s₂ := by simpa using hn.1
    have h1 : a ∉ s₁ := fun hm => h2 (h.mem hm)
    simpa using h1

theorem nodupKeys_knownFields : nodupKeys knownFields = true := by decide

theorem encodeDoc_nodupKeys (r : ScancodeLicense) :
    nodupKeys ((encodeDoc r).map Prod.fst) = true :=
  nodupKeys_sublist (keys_encodeDoc r) nodupKeys_knownFields

theorem categoryOfLabel_label (c : Category) :
    categoryOfLabel (categoryLabel c) = some c := by
  cases c <;> rfl

theorem decodeField_optStr_of_lookup {d : Doc} {k : String} (o : Option String)
    (h : lookupField d k = o.map Value.vstr) :
    decodeField d k parseOptString (some none) = .ok o := by
  cases o with
  | none => exact decodeField_of_lookup_none (by simpa using h)
  | some s =>
    have hs : lookupField d k = some (Value.vstr s) := by simpa using h
    exact decodeField_of_lookup_some hs rfl

theorem decodeField_seq_of_lookup {d : Doc} {k : String} (xs : List String)
    (h : lookupField d k =
      if xs.isEmpty then none else some (Value.vseq (xs.map Value.vstr))) :
    decodeField d k parseSeqString (some []) = .ok xs := by
  by_cases he : xs.isEmpty
  · have hxs : xs = [] := by simpa using he
    subst hxs
    exact decodeField_of_lookup_none (by simpa using h)
  · rw [if_neg he] at h
    exact decodeField_of_lookup_some h
      (by simp [parseSeqString, parseStringList_map_vstr])

theorem decodeField_bool_of_lookup {d : Doc} {k : String} (b : Bool)
    (h : lookupField d k = if b then some (Value.vstr "yes") else none) :
    decodeField d k parseBoolYes (some false) = .ok b := by
  cases b with
  | false => exact decodeField_of_lookup_none (by simpa using h)
  | true =>
    have hs : lookupField d k = some (Value.vstr "yes") := by simpa using h
    exact decodeField_of_lookup_some hs rfl

theorem decodeField_optInt_of_lookup {d : Doc} {k : String} (o : Option Int)
    (hr : ∀ n, o = some n → i32Min ≤ n ∧ n ≤ i32Max)
    (h : lookupField d k = o.map Value.vint) :
    decodeField d k parseOptI32 (some none) = .ok o := by
  cases o with
  | none => exact decodeField_of_lookup_none (by simpa using h)
  | some n =>
    exact decodeField_of_lookup_some (by simpa using h)
      (by simp [parseOptI32, hr n rfl])

theorem decodeField_optInt_ok_range {d : Doc} {k : String} {o : Option Int}
    (h : decodeField d k parseOptI32 (some none) = .ok o) :
    ∀ n, o = some n → i32Min ≤ n ∧ n ≤ i32Max := by
  intro n hn
  subst hn
  unfold decodeField at h
  cases hl : lookupField d k with
  | none => rw [hl] at h; simp at h
  | some v =>
    rw [hl] at h
    cases v with
    | vint m =>
      by_cases hr : i32Min ≤ m ∧ m ≤ i32Max
      · simp only [parseOptI32, if_pos hr, Except.ok.injEq, Option.some.injEq] at h
        rwa [← h]
      · simp [parseOptI32, if_neg hr] at h
    | vstr s => simp [parseOptI32] at h
    | vseq xs => simp [parseOptI32] at h
    | vnull => simp [parseOptI32] at h

theorem lookupField_of_mem_nodup {d : Doc} {k : String} {v : Value}
    (hnd : nodupKeys (d.map Prod.fst) = true) (hmem : (k, v) ∈ d) :
    lookupField d k = some v := by
  induction d with
  | nil => cases hmem
  | cons p rest ih =>
    obtain ⟨k', v'⟩ := p
    simp only [List.map_cons, nodupKeys, Bool.and_eq_true,
               Bool.not_eq_true'] at hnd
    rcases List.mem_cons.mp hmem with heq | hmem'
    · obtain ⟨hk, hv⟩ := Prod.mk.injEq .. ▸ heq
      simp [lookupField, hk.symm, hv]
    · have hkmem : k ∈ rest.map Prod.fst := List.mem_map_of_mem Prod.fst hmem'
      by_cases hk : k' = k
      · subst hk
        have : k' ∉ rest.map Prod.fst := by simpa using hnd.1
        exact absurd hkmem this
      · rw [lookupField, if_neg hk]
        exact ih hnd.2 hmem'

/-- Sample metadata document with exactly the five required fields. -/
def sampleDoc : Doc :=
  [("key", Value.vstr "mit"), ("short_name", Value.vstr "MIT"),
   ("name", Value.vstr "MIT License"), ("category", Value.vstr "Permissive"),
   ("owner", Value.vstr "MIT")]

/-- The record that `sampleDoc` decodes to. -/
def sampleRecord : ScancodeLicense :=
  { key := "mit", short_name := "MIT", name := "MIT License",
    category := .Permissive, owner := "MIT", homepage_url := none,
    notes := none, is_deprecated := false, spdx_license_key := none,
    text_urls := [], osi_url := none, osi_license_key := none,
    faq_url := none, other_urls := [], is_exception := false,
    other_spdx_license_keys := [], ignorable_copyrights := [],
    ignorable_holders := [], ignorable_authors := [],
    ignorable_urls := [], ignorable_emails := [],
    minimum_coverage := none, standard_notice := none,
    language := none, text := "" }

/-- C1: for every license record r obtained by successfully decoding a
metadata document, re-encoding r and decoding the result yields a record
equal to r field by field.  The document model is an association list, so
key order is already abstracted to the lookup of the first binding. -/
theorem c1_decode_encode_roundtrip (d : Doc) (r : ScancodeLicense)
    (h : decodeDoc d = .ok r) : decodeDoc (encodeDoc r) = .ok r := by
  obtain ⟨_, _, _, _, _, _, _, _, _, _, _, _, _, _, _, _, _, _, _, _, _, _,
          _, hmc, _, _, htext⟩ := (decodeDoc_ok_iff d r).mp h
  have hrange := decodeField_optInt_ok_range hmc
  refine (decodeDoc_ok_iff (encodeDoc r) r).mpr
    ⟨encodeDoc_find_none r, encodeDoc_nodupKeys r,
     decodeField_of_lookup_some (lookupField_encodeDoc_key r) rfl,
     decodeField_of_lookup_some (lookupField_encodeDoc_short_name r) rfl,
     decodeField_of_lookup_some (lookupField_encodeDoc_name r) rfl,
     decodeField_of_lookup_some (lookupField_encodeDoc_category r)
       (categoryOfLabel_label r.category),
     decodeField_of_lookup_some (lookupField_encodeDoc_owner r) rfl,
     decodeField_optStr_of_lookup _ (lookupField_encodeDoc_homepage_url r),
     decodeField_optStr_of_lookup _ (lookupField_encodeDoc_notes r),
     decodeField_bool_of_lookup _ (lookupField_encodeDoc_is_deprecated r),
     decodeField_optStr_of_lookup _ (lookupField_encodeDoc_spdx_license_key r),
     decodeField_seq_of_lookup _ (lookupField_encodeDoc_text_urls r),
     decodeField_optStr_of_lookup _ (lookupField_encodeDoc_osi_url r),
     decodeField_optStr_of_lookup _ (lookupField_encodeDoc_osi_license_key r),
     decodeField_optStr_of_lookup _ (lookupField_encodeDoc_faq_url r),
     decodeField_seq_of_lookup _ (lookupField_encodeDoc_other_urls r),
     decodeField_bool_of_lookup _ (lookupField_encodeDoc_is_exception r),
     decodeField_seq_of_lookup _ (lookupField_encodeDoc_other_spdx_license_keys r),
     decodeField_seq_of_lookup _ (lookupField_encodeDoc_ignorable_copyrights r),
     decodeField_seq_of_lookup _ (lookupField_encodeDoc_ignorable_holders r),
     decodeField_seq_of_lookup _ (lookupField_encodeDoc_ignorable_authors r),
     decodeField_seq_of_lookup _ (lookupField_encodeDoc_ignorable_urls r),
     decodeField_seq_of_lookup _ (lookupField_encodeDoc_ignorable_emails r),
     decodeField_optInt_of_lookup _ hrange
       (lookupField_encodeDoc_minimum_coverage r),
     decodeField_optStr_of_lookup _ (lookupField_encodeDoc_standard_notice r),
     decodeField_optStr_of_lookup _ (lookupField_encodeDoc_language r),
     htext⟩

/-- Witness for C1: the round trip evaluated at a concrete document. -/
theorem c1_decode_encode_roundtrip_witness :
    decodeDoc sampleDoc = .ok sampleRecord ∧
    decodeDoc (encodeDoc sampleRecord) = .ok sampleRecord :=
  ⟨by rfl, c1_decode_encode_roundtrip sampleDoc sampleRecord (by rfl)⟩

/-- C2: for the two boolean fields, decoding maps the string yes to true and
every other string (including no and the empty string) to false, through
`bool_from_yes`; encoding maps true to yes and false to no, through
`yes_from_bool`; and the field parser of the boolean fields feeds any string
value through `bool_from_yes`. -/
theorem c2_boolean_codec :
    bool_from_yes "yes" = true ∧
    bool_from_yes "no" = false ∧
    bool_from_yes "" = false ∧
    (∀ s : String, s ≠ "yes" → bool_from_yes s = false) ∧
    yes_from_bool true = "yes" ∧
    yes_from_bool false = "no" ∧
    (∀ s : String, parseBoolYes (Value.vstr s) = some (bool_from_yes s)) := by
  refine ⟨rfl, rfl, rfl, ?_, rfl, rfl, fun s => rfl⟩
  intro s hs
  unfold bool_from_yes
  split
  · simp_all
  · rfl

/-- Witness for C2 at a concrete non-yes string. -/
theorem c2_boolean_codec_witness :
    ("maybe" : String) ≠ "yes" ∧ bool_from_yes "maybe" = false :=
  ⟨by decide, c2_boolean_codec.2.2.2.1 "maybe" (by decide)⟩

/-- C5: the category enumeration has exactly ten variants with the exact
external labels of the serde renames; decoding accepts only an exact label
and encoding emits exactly the label, with the same variant-to-label mapping
used symmetrically in both directions. -/
theorem c5_category_labels :
    allCategories.length = 10 ∧
    allCategories.Nodup ∧
    (∀ c : Category, c ∈ allCategories) ∧
    categoryLabel .CopyleftLimited = "Copyleft Limited" ∧
    categoryLabel .PatentLicense = "Patent License" ∧
    categoryLabel .PublicDomain = "Public Domain" ∧
    categoryLabel .ProprietaryFree = "Proprietary Free" ∧
    categoryLabel .FreeRestricted = "Free Restricted" ∧
    categoryLabel .SourceAvailable = "Source-available" ∧
    categoryLabel .UnstatedLicense = "Unstated License" ∧
    (∀ c, categoryOfLabel (categoryLabel c) = some c) ∧
    (∀ s c, categoryOfLabel s = some c → s = categoryLabel c) := by
  refine ⟨rfl, by decide, ?_, rfl, rfl, rfl, rfl, rfl, rfl, rfl,
          categoryOfLabel_label, ?_⟩
  · intro c
    cases c <;> simp [allCategories]
  · intro s c h
    unfold categoryOfLabel at h
    split at h
    all_goals
      first
      | (injection h with h; subst h; rfl)
      | exact Option.noConfusion h

/-- Witness for C5 at a concrete label. -/
theorem c5_category_labels_witness :
    categoryOfLabel "Source-available" = some Category.SourceAvailable ∧
    ("Source-available" : String) = categoryLabel Category.SourceAvailable :=
  ⟨by rfl, c5_category_labels.2.2.2.2.2.2.2.2.2.2.2 "Source-available"
    Category.SourceAvailable (by rfl)⟩

/-- C10: the minimum_coverage field is decoded as a 32-bit signed integer:
a document binding it to an integer outside the i32 range fails to decode. -/
theorem c10_minimum_coverage_i32_range (d : Doc) (n : Int)
    (hnd : nodupKeys (d.map Prod.fst) = true)
    (hmem : ("minimum_coverage", Value.vint n) ∈ d)
    (hout : n < i32Min ∨ i32Max < n) :
    ∃ e, decodeDoc d = .error e := by
  cases hx : decodeDoc d with
  | error e => exact ⟨e, rfl⟩
  | ok r =>
    exfalso
    obtain ⟨_, _, _, _, _, _, _, _, _, _, _, _, _, _, _, _, _, _, _, _, _, _,
            _, hmc, _, _, _⟩ := (decodeDoc_ok_iff d r).mp hx
    have hl : lookupField d "minimum_coverage" = some (Value.vint n) :=
      lookupField_of_mem_nodup hnd hmem
    have hnr : ¬(i32Min ≤ n ∧ n ≤ i32Max) := by
      simp only [i32Min, i32Max] at hout ⊢
      rcases hout with h | h <;> omega
    have hpn : parseOptI32 (Value.vint n) = none := by
      simp [parseOptI32, hnr]
    unfold decodeField at hmc
    rw [hl] at hmc
    simp only [hpn] at hmc
    exact Except.noConfusion hmc

/-- Witness for C10: a document with minimum_coverage of 2 to the 31st. -/
theorem c10_minimum_coverage_i32_range_witness :
    ∃ e, decodeDoc (sampleDoc ++ [("minimum_coverage", Value.vint (2 ^ 31))]) =
      .error e :=
  c10_minimum_coverage_i32_range _ (2 ^ 31) (by rfl) (by simp [sampleDoc])
    (Or.inr (by norm_num [i32Max]))

theorem lookupField_some_mem {d : Doc} {k : String} {v : Value}
    (h : lookupField d k = some v) : (k, v) ∈ d := by
  induction d with
  | nil => simp [lookupField] at h
  | cons p rest ih =>
    obtain ⟨k', v'⟩ := p
    by_cases hk : k' = k
    · subst hk
      rw [lookupField, if_pos rfl] at h
      injection h with h
      subst h
      exact List.mem_cons_self _ _
    · rw [lookupField, if_neg hk] at h
      exact List.mem_cons_of_mem _ (ih h)

theorem decodeField_lookup_some_eq {α : Type} {d : Doc} {k : String}
    {v : Value} (P : Value → Option α) (dflt : Option α)
    (hl : lookupField d k = some v) :
    decodeField d k P dflt =
      match P v with
      | some a => .ok a
      | none => .error (.invalidValue k) := by
  unfold decodeField
  rw [hl]

theorem decodeField_lookup_none_eq {α : Type} {d : Doc} {k : String}
    (P : Value → Option α) (dflt : Option α)
    (hl : lookupField d k = none) :
    decodeField d k P dflt =
      match dflt with
      | some a => .ok a
      | none => .error (.missingField k) := by
  unfold decodeField
  rw [hl]

theorem decodeField_ok_value {α : Type} {d : Doc} {k : String}
    {P : Value → Option α} {dflt : Option α} {v : Value} {a : α}
    (h : decodeField d k P dflt = .ok a) (hl : lookupField d k = some v) :
    (P v).isSome = true := by
  rw [decodeField_lookup_some_eq P dflt hl] at h
  cases hP : P v with
  | some b => simp [hP]
  | none => rw [hP] at h; simp at h

theorem decodeField_isOk_of_conds {α : Type} (d : Doc) (k : String)
    (P : Value → Option α) (dflt : Option α)
    (hd : lookupField d k = none → dflt.isSome = true)
    (hval : ∀ v, lookupField d k = some v → (P v).isSome = true) :
    ∃ a, decodeField d k P dflt = .ok a := by
  cases hl : lookupField d k with
  | none =>
    rw [decodeField_lookup_none_eq P dflt hl]
    have hds := hd hl
    cases hdf : dflt with
    | some a => exact ⟨a, rfl⟩
    | none => rw [hdf] at hds; simp at hds
  | some v =>
    rw [decodeField_lookup_some_eq P dflt hl]
    have hv := hval v hl
    cases hP : P v with
    | some a => exact ⟨a, rfl⟩
    | none => rw [hP] at hv; simp at hv

/-- Value coercibility of one field of the schema: for each field name the
value must parse under that field's declared type; names outside the schema
impose no constraint here (they are rejected by the unknown-field check). -/
def valueOk (k : String) (v : Value) : Bool :=
  (!(k == "key") || (parseString v).isSome) &&
  (!(k == "short_name") || (parseString v).isSome) &&
  (!(k == "name") || (parseString v).isSome) &&
  (!(k == "category") || (parseCategoryV v).isSome) &&
  (!(k == "owner") || (parseString v).isSome) &&
  (!(k == "homepage_url") || (parseOptString v).isSome) &&
  (!(k == "notes") || (parseOptString v).isSome) &&
  (!(k == "is_deprecated") || (parseBoolYes v).isSome) &&
  (!(k == "spdx_license_key") || (parseOptString v).isSome) &&
  (!(k == "text_urls") || (parseSeqString v).isSome) &&
  (!(k == "osi_url") || (parseOptString v).isSome) &&
  (!(k == "osi_license_key") || (parseOptString v).isSome) &&
  (!(k == "faq_url") || (parseOptString v).isSome) &&
  (!(k == "other_urls") || (parseSeqString v).isSome) &&
  (!(k == "is_exception") || (parseBoolYes v).isSome) &&
  (!(k == "other_spdx_license_keys") || (parseSeqString v).isSome) &&
  (!(k == "ignorable_copyrights") || (parseSeqString v).isSome) &&
  (!(k == "ignorable_holders") || (parseSeqString v).isSome) &&
  (!(k == "ignorable_authors") || (parseSeqString v).isSome) &&
  (!(k == "ignorable_urls") || (parseSeqString v).isSome) &&
  (!(k == "ignorable_emails") || (parseSeqString v).isSome) &&
  (!(k == "minimum_coverage") || (parseOptI32 v).isSome) &&
  (!(k == "standard_notice") || (parseOptString v).isSome) &&
  (!(k == "language") || (parseOptString v).isSome)

/-- C3: over a syntactically well formed mapping (distinct keys, which the
YAML parser guarantees for valid input), decoding fails exactly when the
document has a key outside the schema, lacks one of the five required
fields, or binds a known field to a value its declared type cannot coerce
(an unknown category label is the coercion failure of the category field).
In particular a document with an unknown key always fails.  The final
conjunct covers the syntactic stage: metadata text rejected by the parser
makes the whole read fail. -/
theorem c3_decode_error_iff (d : Doc)
    (hnd : nodupKeys (d.map Prod.fst) = true) :
    ((∃ e, decodeDoc d = .error e) ↔
      (∃ p ∈ d, p.1 ∉ knownFields) ∨
      (∃ k ∈ requiredFields, lookupField d k = none) ∨
      (∃ p ∈ d, valueOk p.1 p.2 = false)) ∧
    (∀ (fs : FileSystem) (parse : YamlParser) (yp : EntryName) (s : String),
      readFile fs yp = .ok s → parse s = .error () →
      ∃ err, from_yaml_file fs parse yp = .error err) := by
  constructor
  · rw [except_exists_error_iff]
    constructor
    · intro hno
      by_contra hRHS
      rcases not_or.mp hRHS with ⟨hA1, hBC⟩
      rcases not_or.mp hBC with ⟨hB1, hC1⟩
      have hA : ∀ p ∈ d, p.1 ∈ knownFields := by
        intro p hp
        by_contra hcon
        exact hA1 ⟨p, hp, hcon⟩
      have hB : ∀ k ∈ requiredFields, lookupField d k ≠ none := by
        intro k hk hl
        exact hB1 ⟨k, hk, hl⟩
      have hC : ∀ p ∈ d, valueOk p.1 p.2 = true := by
        intro p hp
        cases hv : valueOk p.1 p.2 with
        | true => rfl
        | false => exact absurd ⟨p, hp, hv⟩ hC1
      have hfind : d.find? (fun p => !(knownFields.contains p.1)) = none := by
        rw [List.find?_eq_none]
        intro p hp
        simp [hA p hp]
      obtain ⟨a1, ha1⟩ := decodeField_isOk_of_conds d "key" parseString none
        (fun hl => ((hB "key" (by simp [requiredFields])) hl).elim)
        (fun v hv => by
          have hvo := hC ("key", v) (lookupField_some_mem hv)
          simpa [valueOk] using hvo)
      obtain ⟨a2, ha2⟩ := decodeField_isOk_of_conds d "short_name" parseString none
        (fun hl => ((hB "short_name" (by simp [requiredFields])) hl).elim)
        (fun v hv => by
          have hvo := hC ("short_name", v) (lookupField_some_mem hv)
          simpa [valueOk] using hvo)
      obtain ⟨a3, ha3⟩ := decodeField_isOk_of_conds d "name" parseString none
        (fun hl => ((hB "name" (by simp [requiredFields])) hl).elim)
        (fun v hv => by
          have hvo := hC ("name", v) (lookupField_some_mem hv)
          simpa [valueOk] using hvo)
      obtain ⟨a4, ha4⟩ := decodeField_isOk_of_conds d "category" parseCategoryV none
        (fun hl => ((hB "category" (by simp [requiredFields])) hl).elim)
        (fun v hv => by
          have hvo := hC ("category", v) (lookupField_some_mem hv)
          simpa [valueOk] using hvo)
      obtain ⟨a5, ha5⟩ := decodeField_isOk_of_conds d "owner" parseString none
        (fun hl => ((hB "owner" (by simp [requiredFields])) hl).elim)
        (fun v hv => by
          have hvo := hC ("owner", v) (lookupField_some_mem hv)
          simpa [valueOk] using hvo)
      obtain ⟨a6, ha6⟩ := decodeField_isOk_of_conds d "homepage_url" parseOptString (some none)
        (fun _ => rfl)
        (fun v hv => by
          have hvo := hC ("homepage_url", v) (lookupField_some_mem hv)
          simpa [valueOk] using hvo)
      obtain ⟨a7, ha7⟩ := decodeField_isOk_of_conds d "notes" parseOptString (some none)
        (fun _ => rfl)
        (fun v hv => by
          have hvo := hC ("notes", v) (lookupField_some_mem hv)
          simpa [valueOk] using hvo)
      obtain ⟨a8, ha8⟩ := decodeField_isOk_of_conds d "is_deprecated" parseBoolYes (some false)
        (fun _ => rfl)
        (fun v hv => by
          have hvo := hC ("is_deprecated", v) (lookupField_some_mem hv)
          simpa [valueOk] using hvo)
      obtain ⟨a9, ha9⟩ := decodeField_isOk_of_conds d "spdx_license_key" parseOptString (some none)
        (fun _ => rfl)
        (fun v hv => by
          have hvo := hC ("spdx_license_key", v) (lookupField_some_mem hv)
          simpa [valueOk] using hvo)
      obtain ⟨a10, ha10⟩ := decodeField_isOk_of_conds d "text_urls" parseSeqString (some [])
        (fun _ => rfl)
        (fun v hv => by
          have hvo := hC ("text_urls", v) (lookupField_some_mem hv)
          simpa [valueOk] using hvo)
      obtain ⟨a11, ha11⟩ := decodeField_isOk_of_conds d "osi_url" parseOptString (some none)
        (fun _ => rfl)
        (fun v hv => by
          have hvo := hC ("osi_url", v) (lookupField_some_mem hv)
          simpa [valueOk] using hvo)
      obtain ⟨a12, ha12⟩ := decodeField_isOk_of_conds d "osi_license_key" parseOptString (some none)
        (fun _ => rfl)
        (fun v hv => by
          have hvo := hC ("osi_license_key", v) (lookupField_some_mem hv)
          simpa [valueOk] using hvo)
      obtain ⟨a13, ha13⟩ := decodeField_isOk_of_conds d "faq_url" parseOptString (some none)
        (fun _ => rfl)
        (fun v hv => by
          have hvo := hC ("faq_url", v) (lookupField_some_mem hv)
          simpa [valueOk] using hvo)
      obtain ⟨a14, ha14⟩ := decodeField_isOk_of_conds d "other_urls" parseSeqString (some [])
        (fun _ => rfl)
        (fun v hv => by
          have hvo := hC ("other_urls", v) (lookupField_some_mem hv)
          simpa [valueOk] using hvo)
      obtain ⟨a15, ha15⟩ := decodeField_isOk_of_conds d "is_exception" parseBoolYes (some false)
        (fun _ => rfl)
        (fun v hv => by
          have hvo := hC ("is_exception", v) (lookupField_some_mem hv)
          simpa [valueOk] using hvo)
      obtain ⟨a16, ha16⟩ := decodeField_isOk_of_conds d "other_spdx_license_keys" parseSeqString (some [])
        (fun _ => rfl)
        (fun v hv => by
          have hvo := hC ("other_spdx_license_keys", v) (lookupField_some_mem hv)
          simpa [valueOk] using hvo)
      obtain ⟨a17, ha17⟩ := decodeField_isOk_of_conds d "ignorable_copyrights" parseSeqString (some [])
        (fun _ => rfl)
        (fun v hv => by
          have hvo := hC ("ignorable_copyrights", v) (lookupField_some_mem hv)
          simpa [valueOk] using hvo)
      obtain ⟨a18, ha18⟩ := decodeField_isOk_of_conds d "ignorable_holders" parseSeqString (some [])
        (fun _ => rfl)
        (fun v hv => by
          have hvo := hC ("ignorable_holders", v) (lookupField_some_mem hv)
          simpa [valueOk] using hvo)
      obtain ⟨a19, ha19⟩ := decodeField_isOk_of_conds d "ignorable_authors" parseSeqString (some [])
        (fun _ => rfl)
        (fun v hv => by
          have hvo := hC ("ignorable_authors", v) (lookupField_some_mem hv)
          simpa [valueOk] using hvo)
      obtain ⟨a20, ha20⟩ := decodeField_isOk_of_conds d "ignorable_urls" parseSeqString (some [])
        (fun _ => rfl)
        (fun v hv => by
          have hvo := hC ("ignorable_urls", v) (lookupField_some_mem hv)
          simpa [valueOk] using hvo)
      obtain ⟨a21, ha21⟩ := decodeField_isOk_of_conds d "ignorable_emails" parseSeqString (some [])
        (fun _ => rfl)
        (fun v hv => by
          have hvo := hC ("ignorable_emails", v) (lookupField_some_mem hv)
          simpa [valueOk] using hvo)
      obtain ⟨a22, ha22⟩ := decodeField_isOk_of_conds d "minimum_coverage" parseOptI32 (some none)
        (fun _ => rfl)
        (fun v hv => by
          have hvo := hC ("minimum_coverage", v) (lookupField_some_mem hv)
          simpa [valueOk] using hvo)
      obtain ⟨a23, ha23⟩ := decodeField_isOk_of_conds d "standard_notice" parseOptString (some none)
        (fun _ => rfl)
        (fun v hv => by
          have hvo := hC ("standard_notice", v) (lookupField_some_mem hv)
          simpa [valueOk] using hvo)
      obtain ⟨a24, ha24⟩ := decodeField_isOk_of_conds d "language" parseOptString (some none)
        (fun _ => rfl)
        (fun v hv => by
          have hvo := hC ("language", v) (lookupField_some_mem hv)
          simpa [valueOk] using hvo)
      exact hno ⟨⟨a1, a2, a3, a4, a5, a6, a7, a8, a9, a10, a11, a12, a13, a14, a15, a16, a17, a18, a19, a20, a21, a22, a23, a24, ""⟩,
        (decodeDoc_ok_iff d ⟨a1, a2, a3, a4, a5, a6, a7, a8, a9, a10, a11, a12, a13, a14, a15, a16, a17, a18, a19, a20, a21, a22, a23, a24, ""⟩).mpr
          ⟨hfind, hnd, ha1, ha2, ha3, ha4, ha5, ha6, ha7, ha8, ha9, ha10, ha11, ha12, ha13, ha14, ha15, ha16, ha17, ha18, ha19, ha20, ha21, ha22, ha23, ha24, rfl⟩⟩
    · rintro (⟨p, hp, hpk⟩ | ⟨k, hk, hlk⟩ | ⟨p, hp, hvo⟩) ⟨r, hr⟩
      · obtain ⟨hfind, -, hf1, hf2, hf3, hf4, hf5, hf6, hf7, hf8, hf9, hf10, hf11, hf12, hf13, hf14, hf15, hf16, hf17, hf18, hf19, hf20, hf21, hf22, hf23, hf24, -⟩ := (decodeDoc_ok_iff d r).mp hr
        have := List.find?_eq_none.mp hfind p hp
        simp at this
        exact hpk this
      · obtain ⟨hfind, -, hf1, hf2, hf3, hf4, hf5, hf6, hf7, hf8, hf9, hf10, hf11, hf12, hf13, hf14, hf15, hf16, hf17, hf18, hf19, hf20, hf21, hf22, hf23, hf24, -⟩ := (decodeDoc_ok_iff d r).mp hr
        simp [requiredFields] at hk
        rcases hk with hk | hk | hk | hk | hk <;> subst hk
        · rw [decodeField_lookup_none_eq parseString none hlk] at hf1
          simp at hf1
        · rw [decodeField_lookup_none_eq parseString none hlk] at hf2
          simp at hf2
        · rw [decodeField_lookup_none_eq parseString none hlk] at hf3
          simp at hf3
        · rw [decodeField_lookup_none_eq parseCategoryV none hlk] at hf4
          simp at hf4
        · rw [decodeField_lookup_none_eq parseString none hlk] at hf5
          simp at hf5
      · obtain ⟨hfind, -, hf1, hf2, hf3, hf4, hf5, hf6, hf7, hf8, hf9, hf10, hf11, hf12, hf13, hf14, hf15, hf16, hf17, hf18, hf19, hf20, hf21, hf22, hf23, hf24, -⟩ := (decodeDoc_ok_iff d r).mp hr
        have hkk : p.1 ∈ knownFields := by
          have := List.find?_eq_none.mp hfind p hp
          simpa using this
        have hl : lookupField d p.1 = some p.2 :=
          lookupField_of_mem_nodup hnd hp
        simp [knownFields] at hkk
        rcases hkk with hk | hk | hk | hk | hk | hk | hk | hk | hk | hk | hk | hk | hk | hk | hk | hk | hk | hk | hk | hk | hk | hk | hk | hk
        · rw [hk] at hl hvo
          have hs := decodeField_ok_value hf1 hl
          simp [valueOk, hs] at hvo
        · rw [hk] at hl hvo
          have hs := decodeField_ok_value hf2 hl
          simp [valueOk, hs] at hvo
        · rw [hk] at hl hvo
          have hs := decodeField_ok_value hf3 hl
          simp [valueOk, hs] at hvo
        · rw [hk] at hl hvo
          have hs := decodeField_ok_value hf4 hl
          simp [valueOk, hs] at hvo
        · rw [hk] at hl hvo
          have hs := decodeField_ok_value hf5 hl
          simp [valueOk, hs] at hvo
        · rw [hk] at hl hvo
          have hs := decodeField_ok_value hf6 hl
          simp [valueOk, hs] at hvo
        · rw [hk] at hl hvo
          have hs := decodeField_ok_value hf7 hl
          simp [valueOk, hs] at hvo
        · rw [hk] at hl hvo
          have hs := decodeField_ok_value hf8 hl
          simp [valueOk, hs] at hvo
        · rw [hk] at hl hvo
          have hs := decodeField_ok_value hf9 hl
          simp [valueOk, hs] at hvo
        · rw [hk] at hl hvo
          have hs := decodeField_ok_value hf10 hl
          simp [valueOk, hs] at hvo
        · rw [hk] at hl hvo
          have hs := decodeField_ok_value hf11 hl
          simp [valueOk, hs] at hvo
        · rw [hk] at hl hvo
          have hs := decodeField_ok_value hf12 hl
          simp [valueOk, hs] at hvo
        · rw [hk] at hl hvo
          have hs := decodeField_ok_value hf13 hl
          simp [valueOk, hs] at hvo
        · rw [hk] at hl hvo
          have hs := decodeField_ok_value hf14 hl
          simp [valueOk, hs] at hvo
        · rw [hk] at hl hvo
          have hs := decodeField_ok_value hf15 hl
          simp [valueOk, hs] at hvo
        · rw [hk] at hl hvo
          have hs := decodeField_ok_value hf16 hl
          simp [valueOk, hs] at hvo
        · rw [hk] at hl hvo
          have hs := decodeField_ok_value hf17 hl
          simp [valueOk, hs] at hvo
        · rw [hk] at hl hvo
          have hs := decodeField_ok_value hf18 hl
          simp [valueOk, hs] at hvo
        · rw [hk] at hl hvo
          have hs := decodeField_ok_value hf19 hl
          simp [valueOk, hs] at hvo
        · rw [hk] at hl hvo
          have hs := decodeField_ok_value hf20 hl
          simp [valueOk, hs] at hvo
        · rw [hk] at hl hvo
          have hs := decodeField_ok_value hf21 hl
          simp [valueOk, hs] at hvo
        · rw [hk] at hl hvo
          have hs := decodeField_ok_value hf22 hl
          simp [valueOk, hs] at hvo
        · rw [hk] at hl hvo
          have hs := decodeField_ok_value hf23 hl
          simp [valueOk, hs] at hvo
        · rw [hk] at hl hvo
          have hs := decodeField_ok_value hf24 hl
          simp [valueOk, hs] at hvo
  · intro fs parse yp s hread hparse
    exact ⟨ScancodeError.SerdeYaml (fileName yp),
      by simp [from_yaml_file, serde_from_str, hread, hparse]⟩

/-- Witness for C3: a document with a key outside the schema fails. -/
theorem c3_decode_error_iff_witness :
    ∃ e, decodeDoc (sampleDoc ++ [("bogus_field", Value.vstr "x")]) =
      .error e :=
  ((c3_decode_error_iff (sampleDoc ++ [("bogus_field", Value.vstr "x")])
      (by rfl)).1).mpr
    (Or.inl ⟨("bogus_field", Value.vstr "x"), by simp [sampleDoc],
      by simp [knownFields]⟩)

/-- Per-field default value as it would appear in a document: sequence
fields default to the empty sequence, the two boolean fields to the encoding
of false; optional fields default to absence, which no emitted value can
equal. -/
def defaultValueOf : String → Option Value
  | "is_deprecated" => some (Value.vstr (yes_from_bool false))
  | "is_exception" => some (Value.vstr (yes_from_bool false))
  | "text_urls" => some (Value.vseq [])
  | "other_urls" => some (Value.vseq [])
  | "other_spdx_license_keys" => some (Value.vseq [])
  | "ignorable_copyrights" => some (Value.vseq [])
  | "ignorable_holders" => some (Value.vseq [])
  | "ignorable_authors" => some (Value.vseq [])
  | "ignorable_urls" => some (Value.vseq [])
  | "ignorable_emails" => some (Value.vseq [])
  | _ => none

theorem mem_encodeOptStr {p : String × Value} {k : String} {v : Option String}
    (h : p ∈ encodeOptStr k v) : ∃ s, v = some s ∧ p = (k, Value.vstr s) := by
  cases v with
  | none => simp [encodeOptStr] at h
  | some s =>
    simp [encodeOptStr] at h
    exact ⟨s, rfl, h⟩

theorem mem_encodeSeq {p : String × Value} {k : String} {xs : List String}
    (h : p ∈ encodeSeq k xs) :
    xs ≠ [] ∧ p = (k, Value.vseq (xs.map Value.vstr)) := by
  by_cases he : xs.isEmpty
  · simp [encodeSeq, he] at h
  · rw [encodeSeq, if_neg he] at h
    simp at h
    exact ⟨by simpa using he, h⟩

theorem mem_encodeBool {p : String × Value} {k : String} {b : Bool}
    (h : p ∈ encodeBool k b) : b = true ∧ p = (k, Value.vstr "yes") := by
  cases b with
  | false => simp [encodeBool, is_false] at h
  | true =>
    simp [encodeBool, is_false, yes_from_bool] at h
    exact ⟨rfl, h⟩

theorem mem_encodeOptInt {p : String × Value} {k : String} {v : Option Int}
    (h : p ∈ encodeOptInt k v) : ∃ n, v = some n ∧ p = (k, Value.vint n) := by
  cases v with
  | none => simp [encodeOptInt] at h
  | some n =>
    simp [encodeOptInt] at h
    exact ⟨n, rfl, h⟩

/-- C4: encoding never emits a key whose value equals that field default (an
empty sequence or the encoding of false; absent optionals have no document
value at all), and the text field is neither written by the encoder (no
emitted key is named text) nor read by the decoder (a decoded record always
has empty text, and a document that does contain a text key fails as an
unknown field). -/
theorem c4_default_omission :
    (∀ (r : ScancodeLicense), ∀ p ∈ encodeDoc r,
      defaultValueOf p.1 ≠ some p.2 ∧ p.1 ≠ "text") ∧
    (∀ (d : Doc) (r : ScancodeLicense), decodeDoc d = .ok r → r.text = "") ∧
    (∀ (d : Doc) (v : Value), ("text", v) ∈ d →
      ∃ e, decodeDoc d = .error e) := by
  refine ⟨?_, ?_, ?_⟩
  · intro r p hp
    rw [encodeDoc] at hp
    simp only [List.append_assoc, List.mem_append] at hp
    rcases hp with hp | hp | hp | hp | hp | hp | hp | hp | hp | hp | hp | hp |
      hp | hp | hp | hp | hp | hp | hp | hp
    · simp only [List.mem_cons, List.not_mem_nil, or_false] at hp
      rcases hp with rfl | rfl | rfl | rfl | rfl <;>
        exact ⟨by simp [defaultValueOf], by simp⟩
    · obtain ⟨s, hv, rfl⟩ := mem_encodeOptStr hp
      exact ⟨by simp [defaultValueOf], by simp⟩
    · obtain ⟨s, hv, rfl⟩ := mem_encodeOptStr hp
      exact ⟨by simp [defaultValueOf], by simp⟩
    · obtain ⟨hb, rfl⟩ := mem_encodeBool hp
      exact ⟨by simp [defaultValueOf, yes_from_bool], by simp⟩
    · obtain ⟨s, hv, rfl⟩ := mem_encodeOptStr hp
      exact ⟨by simp [defaultValueOf], by simp⟩
    · obtain ⟨hne, rfl⟩ := mem_encodeSeq hp
      exact ⟨by simp [defaultValueOf, hne], by simp⟩
    · obtain ⟨s, hv, rfl⟩ := mem_encodeOptStr hp
      exact ⟨by simp [defaultValueOf], by simp⟩
    · obtain ⟨s, hv, rfl⟩ := mem_encodeOptStr hp
      exact ⟨by simp [defaultValueOf], by simp⟩
    · obtain ⟨s, hv, rfl⟩ := mem_encodeOptStr hp
      exact ⟨by simp [defaultValueOf], by simp⟩
    · obtain ⟨hne, rfl⟩ := mem_encodeSeq hp
      exact ⟨by simp [defaultValueOf, hne], by simp⟩
    · obtain ⟨hb, rfl⟩ := mem_encodeBool hp
      exact ⟨by simp [defaultValueOf, yes_from_bool], by simp⟩
    · obtain ⟨hne, rfl⟩ := mem_encodeSeq hp
      exact ⟨by simp [defaultValueOf, hne], by simp⟩
    · obtain ⟨hne, rfl⟩ := mem_encodeSeq hp
      exact ⟨by simp [defaultValueOf, hne], by simp⟩
    · obtain ⟨hne, rfl⟩ := mem_encodeSeq hp
      exact ⟨by simp [defaultValueOf, hne], by simp⟩
    · obtain ⟨hne, rfl⟩ := mem_encodeSeq hp
      exact ⟨by simp [defaultValueOf, hne], by simp⟩
    · obtain ⟨hne, rfl⟩ := mem_encodeSeq hp
      exact ⟨by simp [defaultValueOf, hne], by simp⟩
    · obtain ⟨hne, rfl⟩ := mem_encodeSeq hp
      exact ⟨by simp [defaultValueOf, hne], by simp⟩
    · obtain ⟨n, hv, rfl⟩ := mem_encodeOptInt hp
      exact ⟨by simp [defaultValueOf], by simp⟩
    · obtain ⟨s, hv, rfl⟩ := mem_encodeOptStr hp
      exact ⟨by simp [defaultValueOf], by simp⟩
    · obtain ⟨s, hv, rfl⟩ := mem_encodeOptStr hp
      exact ⟨by simp [defaultValueOf], by simp⟩
  · intro d r h
    obtain ⟨-, -, -, -, -, -, -, -, -, -, -, -, -, -, -, -, -, -, -, -, -, -,
            -, -, -, -, htext⟩ := (decodeDoc_ok_iff d r).mp h
    exact htext
  · intro d v hmem
    cases hx : decodeDoc d with
    | error e => exact ⟨e, rfl⟩
    | ok r =>
      exfalso
      have hfind := ((decodeDoc_ok_iff d r).mp hx).1
      have := List.find?_eq_none.mp hfind ("text", v) hmem
      simp [knownFields] at this

/-- Witness for C4 at the first entry emitted for a concrete record. -/
theorem c4_default_omission_witness :
    defaultValueOf ("key", Value.vstr "mit").1 ≠
      some ("key", Value.vstr "mit").2 ∧
    ("key", Value.vstr "mit").1 ≠ "text" :=
  c4_default_omission.1 sampleRecord ("key", Value.vstr "mit")
    (by rw [show encodeDoc sampleRecord =
        [("key", Value.vstr "mit"), ("short_name", Value.vstr "MIT"),
         ("name", Value.vstr "MIT License"),
         ("category", Value.vstr "Permissive"),
         ("owner", Value.vstr "MIT")] from rfl]
        exact List.mem_cons_self _ _)

theorem walkEntries_error_of_bad (fs : FileSystem) (parse : YamlParser)
    (l : List (Except Unit EntryName)) (e : EntryName)
    (hname : fileName e ≠ "index.yml") (hext : e.ext = some "yml")
    (hbad : ∃ err, from_yaml_file fs parse e = .error err) :
    ∀ acc, (Except.ok e ∈ l) →
      ∃ err2, walkEntries fs parse l acc = .error err2 := by
  induction l with
  | nil => intro acc hmem; cases hmem
  | cons x rest ih =>
    intro acc hmem
    cases x with
    | error u => exact ⟨.OtherIo, rfl⟩
    | ok p =>
      rcases List.mem_cons.mp hmem with heq | hmem'
      · injection heq with heq
        subst heq
        obtain ⟨err, herr⟩ := hbad
        exact ⟨err, by simp [walkEntries, hname, hext, herr]⟩
      · by_cases h1 : fileName p = "index.yml"
        · rw [show walkEntries fs parse (.ok p :: rest) acc =
              walkEntries fs parse rest acc from by simp [walkEntries, h1]]
          exact ih acc hmem'
        · by_cases h2 : p.ext = some "yml"
          · cases hyf : from_yaml_file fs parse p with
            | error err =>
              exact ⟨err, by simp [walkEntries, h1, h2, hyf]⟩
            | ok lic =>
              rw [show walkEntries fs parse (.ok p :: rest) acc =
                  walkEntries fs parse rest (acc ++ [lic]) from by
                    simp [walkEntries, h1, h2, hyf]]
              exact ih (acc ++ [lic]) hmem'
          · rw [show walkEntries fs parse (.ok p :: rest) acc =
                walkEntries fs parse rest acc from by
                  simp [walkEntries, h1, h2]]
            exact ih acc hmem'

/-- C6: whenever some metadata document of the directory fails to decode
(or even to be read), the whole import returns an error and in particular no
partial collection, whatever else the directory contains. -/
theorem c6_fail_fast (td cl : Except Unit Unit) (lp : String)
    (entries : List (Except Unit EntryName)) (fs : FileSystem)
    (parse : YamlParser) (e : EntryName)
    (hmem : Except.ok e ∈ entries) (hname : fileName e ≠ "index.yml")
    (hext : e.ext = some "yml")
    (hbad : ∃ err, from_yaml_file fs parse e = .error err) :
    ∃ err2, from_git_database td cl lp (.ok entries) fs parse =
      .error err2 := by
  cases td with
  | error u => exact ⟨.OtherIo, rfl⟩
  | ok u =>
    cases cl with
    | error u => exact ⟨.Git, rfl⟩
    | ok u =>
      exact walkEntries_error_of_bad fs parse entries e hname hext hbad [] hmem

/-- Witness for C6: a one-entry directory whose metadata file is missing. -/
theorem c6_fail_fast_witness :
    ∃ err2, from_git_database (.ok ()) (.ok ()) "licenses"
      (.ok [Except.ok ⟨"bad", some "yml"⟩]) [] (fun _ => .error ()) =
      .error err2 :=
  c6_fail_fast (.ok ()) (.ok ()) "licenses" [Except.ok ⟨"bad", some "yml"⟩]
    [] (fun _ => .error ()) ⟨"bad", some "yml"⟩ (by simp) (by simp [fileName])
    rfl ⟨ScancodeError.Io "bad.yml", rfl⟩

/-- C7: when the metadata document reads, parses and decodes, a failing read
of the companion text file is not an error: the record is returned with
empty text; by contrast a failing read of the metadata document itself is
fatal, producing an Io error with the path. -/
theorem c7_companion_tolerance (fs : FileSystem) (parse : YamlParser)
    (yp : EntryName) (s : String) (d : Doc) (r : ScancodeLicense)
    (h1 : readFile fs yp = .ok s) (h2 : parse s = .ok d)
    (h3 : decodeDoc d = .ok r)
    (h4 : readFile fs (with_extension yp "LICENSE") = .error ()) :
    from_yaml_file fs parse yp = .ok { r with text := "" } ∧
    (∀ (fs2 : FileSystem) (yp2 : EntryName), readFile fs2 yp2 = .error () →
      from_yaml_file fs2 parse yp2 =
        .error (ScancodeError.Io (fileName yp2))) := by
  constructor
  · simp [from_yaml_file, serde_from_str, h1, h2, h3, h4]
  · intro fs2 yp2 hrf
    simp [from_yaml_file, hrf]

/-- Witness for C7 on a filesystem with the metadata file only. -/
theorem c7_companion_tolerance_witness :
    from_yaml_file [(⟨"mit", some "yml"⟩, FileData.contents "M")]
      (fun s => if s = "M" then .ok sampleDoc else .error ())
      ⟨"mit", some "yml"⟩ = .ok { sampleRecord with text := "" } :=
  (c7_companion_tolerance [(⟨"mit", some "yml"⟩, FileData.contents "M")]
    (fun s => if s = "M" then .ok sampleDoc else .error ())
    ⟨"mit", some "yml"⟩ "M" sampleDoc sampleRecord rfl (by rfl) (by rfl)
    rfl).1

/-- The metadata document of the gpl-2.0-library scenario of the spec. -/
def gplDoc : Doc :=
  [("key", Value.vstr "gpl-2.0-library"),
   ("short_name", Value.vstr "GPL 2.0 with Library exception"),
   ("name",
    Value.vstr "GNU General Public License 2.0 with Library exception"),
   ("category", Value.vstr "Copyleft Limited"),
   ("owner", Value.vstr "Grammatica"),
   ("other_urls",
    Value.vseq [Value.vstr "http://grammatica.percederberg.net/index.html"]),
   ("is_exception", Value.vstr "yes")]

/-- The record that the gpl-2.0-library scenario produces. -/
def gplRecord : ScancodeLicense :=
  { key := "gpl-2.0-library",
    short_name := "GPL 2.0 with Library exception",
    name := "GNU General Public License 2.0 with Library exception",
    category := .CopyleftLimited, owner := "Grammatica",
    homepage_url := none, notes := none, is_deprecated := false,
    spdx_license_key := none, text_urls := [], osi_url := none,
    osi_license_key := none, faq_url := none,
    other_urls := ["http://grammatica.percederberg.net/index.html"],
    is_exception := true, other_spdx_license_keys := [],
    ignorable_copyrights := [], ignorable_holders := [],
    ignorable_authors := [], ignorable_urls := [], ignorable_emails := [],
    minimum_coverage := none, standard_notice := none, language := none,
    text := "" }

/-- The directory of the scenario: the metadata file only. -/
def gplFs : FileSystem :=
  [(⟨"gpl-2.0-library", some "yml"⟩, FileData.contents "gpl-meta")]

/-- A parser recognizing only the scenario metadata text. -/
def gplParse : YamlParser :=
  fun s => if s = "gpl-meta" then .ok gplDoc else .error ()

/-- C8: a directory entry named index.yml is skipped unconditionally by the
entry walk; concretely, a directory holding gpl-2.0-library.yml with
is_exception yes together with index.yml imports to exactly one record,
whose is_exception field is true. -/
theorem c8_index_skipped (fs : FileSystem) (parse : YamlParser)
    (rest : List (Except Unit EntryName)) (acc : List ScancodeLicense)
    (e : EntryName) (hname : fileName e = "index.yml") :
    walkEntries fs parse (.ok e :: rest) acc = walkEntries fs parse rest acc ∧
    from_git_database (.ok ()) (.ok ()) "licenses"
      (.ok [Except.ok ⟨"gpl-2.0-library", some "yml"⟩,
            Except.ok ⟨"index", some "yml"⟩]) gplFs gplParse =
      .ok [gplRecord] ∧
    gplRecord.is_exception = true :=
  ⟨by simp [walkEntries, hname], by rfl, rfl⟩

/-- Witness for C8 at the reserved file name. -/
theorem c8_index_skipped_witness :
    walkEntries [] (fun _ => .error ())
      [Except.ok ⟨"index", some "yml"⟩] [] =
    walkEntries [] (fun _ => .error ()) [] [] :=
  (c8_index_skipped [] (fun _ => .error ()) [] [] ⟨"index", some "yml"⟩
    (by rfl)).1

theorem from_yaml_file_error_shape {fs : FileSystem} {parse : YamlParser}
    {p : EntryName} {err : ScancodeError}
    (h : from_yaml_file fs parse p = .error err) :
    err = .Io (fileName p) ∨ err = .SerdeYaml (fileName p) := by
  unfold from_yaml_file at h
  cases hr : readFile fs p with
  | error u =>
    simp only [hr] at h
    injection h with h
    exact Or.inl h.symm
  | ok s =>
    simp only [hr] at h
    cases hs : serde_from_str parse s with
    | error u =>
      simp only [hs] at h
      injection h with h
      exact Or.inr h.symm
    | ok lic =>
      simp only [hs] at h
      simp at h

theorem walkEntries_error_origin (fs : FileSystem) (parse : YamlParser)
    (l : List (Except Unit EntryName)) :
    ∀ acc (e : ScancodeError), walkEntries fs parse l acc = .error e →
      e = .OtherIo ∨
      ∃ p : EntryName, e = .Io (fileName p) ∨ e = .SerdeYaml (fileName p) := by
  induction l with
  | nil => intro acc e h; simp [walkEntries] at h
  | cons x rest ih =>
    intro acc e h
    cases x with
    | error u =>
      rw [show walkEntries fs parse (.error u :: rest) acc =
          .error .OtherIo from rfl] at h
      injection h with h
      exact Or.inl h.symm
    | ok p =>
      by_cases h1 : fileName p = "index.yml"
      · rw [show walkEntries fs parse (.ok p :: rest) acc =
            walkEntries fs parse rest acc from by simp [walkEntries, h1]] at h
        exact ih acc e h
      · by_cases h2 : p.ext = some "yml"
        · cases hyf : from_yaml_file fs parse p with
          | error err =>
            rw [show walkEntries fs parse (.ok p :: rest) acc =
                .error err from by simp [walkEntries, h1, h2, hyf]] at h
            injection h with h
            subst h
            exact Or.inr ⟨p, from_yaml_file_error_shape hyf⟩
          | ok lic =>
            rw [show walkEntries fs parse (.ok p :: rest) acc =
                walkEntries fs parse rest (acc ++ [lic]) from by
                  simp [walkEntries, h1, h2, hyf]] at h
            exact ih (acc ++ [lic]) e h
        · rw [show walkEntries fs parse (.ok p :: rest) acc =
              walkEntries fs parse rest acc from by
                simp [walkEntries, h1, h2]] at h
          exact ih acc e h

/-- C9, counterexample: a clone failure surfaces as the Git error variant,
which carries neither a file path nor the repository URL, refuting the claim
that every import error carries its origin. -/
theorem c9_counterexample :
    from_git_database (.ok ()) (.error ()) "docs" (.ok []) []
      (fun _ => .error ()) = .error ScancodeError.Git ∧
    errorOrigin ScancodeError.Git = none :=
  ⟨rfl, rfl⟩

/-- C9 as amended: per-record errors (metadata read, parse and decode) carry
the path of the file being processed and the directory-listing error carries
the directory path, while the temporary-directory, clone and
entry-iteration errors carry no origin at all. -/
theorem c9_error_origin (td cl : Except Unit Unit) (lp : String)
    (dir : Except Unit (List (Except Unit EntryName))) (fs : FileSystem)
    (parse : YamlParser) (e : ScancodeError)
    (h : from_git_database td cl lp dir fs parse = .error e) :
    e = .OtherIo ∨ e = .Git ∨
    (e = .Io lp ∧ errorOrigin e = some lp) ∨
    (∃ p : EntryName,
      (e = .Io (fileName p) ∨ e = .SerdeYaml (fileName p)) ∧
      errorOrigin e = some (fileName p)) := by
  cases td with
  | error u =>
    injection h with h
    exact Or.inl h.symm
  | ok u =>
    cases cl with
    | error u2 =>
      injection h with h
      exact Or.inr (Or.inl h.symm)
    | ok u2 =>
      cases dir with
      | error u3 =>
        injection h with h
        subst h
        exact Or.inr (Or.inr (Or.inl ⟨rfl, rfl⟩))
      | ok entries =>
        rw [show from_git_database (.ok u) (.ok u2) lp (.ok entries) fs parse =
            walkEntries fs parse entries [] from rfl] at h
        rcases walkEntries_error_origin fs parse entries [] e h with
          hio | ⟨p, hp⟩
        · exact Or.inl hio
        · refine Or.inr (Or.inr (Or.inr ⟨p, hp, ?_⟩))
          rcases hp with rfl | rfl <;> rfl

/-- Witness for C9 as amended: a decode failure carries the file path. -/
theorem c9_error_origin_witness :
    ScancodeError.Io "bad.yml" = ScancodeError.OtherIo ∨
    ScancodeError.Io "bad.yml" = ScancodeError.Git ∨
    (ScancodeError.Io "bad.yml" = ScancodeError.Io "licenses" ∧
      errorOrigin (ScancodeError.Io "bad.yml") = some "licenses") ∨
    (∃ p : EntryName,
      (ScancodeError.Io "bad.yml" = ScancodeError.Io (fileName p) ∨
       ScancodeError.Io "bad.yml" = ScancodeError.SerdeYaml (fileName p)) ∧
      errorOrigin (ScancodeError.Io "bad.yml") = some (fileName p)) :=
  c9_error_origin (.ok ()) (.ok ()) "licenses"
    (.ok [Except.ok ⟨"bad", some "yml"⟩]) [] (fun _ => .error ())
    (ScancodeError.Io "bad.yml") (by rfl)

